import Mathlib

/-!
Verification of the response-normalization layer of the `mcp-kr-legislation`
server against its specification.

The Python modules embedded here (shallowly, as pure Lean functions over a
JSON value type) are:
* `src/mcp_kr_legislation/utils/response_parser.py`
  (`RESPONSE_STRUCTURE_MAP`, `extract_items_from_response`, `normalize_response`)
* `src/mcp_kr_legislation/utils/response_cleaner.py`
  (`clean_html_tags`, `clean_dict_values`, `clean_list_values`, `clean_search_result`)
* `src/mcp_kr_legislation/tools/law_tools.py`
  (cache helpers `get_cache_key` / `is_cache_valid` / `load_from_cache`,
   and the search-result formatter `_format_search_results` together with the
   helpers it calls).

Python dictionaries are modelled as association lists with first-match lookup
(Python dict keys are unique, and insertion order is iteration order, which the
association list preserves).  Machine-level concerns (UTF-8 byte layout, hash
values) are modelled abstractly where the code treats them abstractly.
-/

namespace KrLeg

/-- A decoded JSON value, as handed to the Python response-normalization layer
(`json.loads` output): `None`, `bool`, `int`, `str`, `list`, `dict`.  Upstream
responses never use floats in the code paths verified here, so numbers are
integers. -/
inductive JVal where
  | null
  | bool (b : Bool)
  | num (n : Int)
  | str (s : String)
  | arr (elems : List JVal)
  | obj (members : List (String × JVal))
deriving Inhabited, Repr

/-- Python `d[k]` / `k in d` for a dict: first binding of the key (dict keys
are unique in any value produced by `json.loads`). -/
def jLookup (kvs : List (String × JVal)) (k : String) : Option JVal :=
  (kvs.find? (fun p => p.1 == k)).map (·.2)

/-- Python `k in d` for a dict. -/
def jHasKey (kvs : List (String × JVal)) (k : String) : Bool :=
  (jLookup kvs k).isSome

/-! ## Embedding of `response_parser.py`: the envelope resolver -/

/-- Embeds `RESPONSE_STRUCTURE_MAP` from `response_parser.py` lines 18-71: the static
table `target ↦ (outer_key, inner_key)`, kept in source (insertion) order
because the fallback scan iterates `.values()` in that order. -/
def RESPONSE_STRUCTURE_MAP : List (String × String × String) :=
  [ ("law", "LawSearch", "law"),
    ("elaw", "LawSearch", "law"),
    ("eflaw", "LawSearch", "law"),
    ("prec", "PrecSearch", "prec"),
    ("detc", "DetcSearch", "Detc"),
    ("expc", "Expc", "expc"),
    ("decc", "Decc", "decc"),
    ("ppc", "Ppc", "ppc"),
    ("fsc", "Fsc", "fsc"),
    ("ftc", "Ftc", "ftc"),
    ("acr", "Acr", "acr"),
    ("nlrc", "Nlrc", "nlrc"),
    ("ecc", "Ecc", "ecc"),
    ("sfc", "Sfc", "sfc"),
    ("nhrck", "Nhrck", "nhrck"),
    ("kcc", "Kcc", "kcc"),
    ("iaciac", "Iaciac", "iaciac"),
    ("oclt", "Oclt", "oclt"),
    ("eiac", "Eiac", "eiac"),
    ("admrul", "AdmRulSearch", "admrul"),
    ("ordin", "OrdinSearch", "law"),
    ("ordinfd", "OrdinSearch", "ordinfd"),
    ("trty", "TrtySearch", "Trty"),
    ("lstrm", "LsTrmSearch", "lstrm"),
    ("lstrmAI", "lstrmAISearch", "법령용어"),
    ("moefCgmExpc", "CgmExpc", "cgmExpc"),
    ("molitCgmExpc", "CgmExpc", "cgmExpc"),
    ("moelCgmExpc", "CgmExpc", "cgmExpc"),
    ("mofCgmExpc", "CgmExpc", "cgmExpc"),
    ("moisCgmExpc", "CgmExpc", "cgmExpc"),
    ("meCgmExpc", "CgmExpc", "cgmExpc"),
    ("ntsCgmExpc", "CgmExpc", "cgmExpc"),
    ("kcsCgmExpc", "CgmExpc", "cgmExpc"),
    ("ttSpecialDecc", "DeccSearch", "Decc"),
    ("kmstSpecialDecc", "DeccSearch", "Decc") ]

/-- Dict lookup `RESPONSE_STRUCTURE_MAP[target]` (keys are unique, so first
match is the dict binding). -/
def structureMapLookup (t : String) : Option (String × String) :=
  (RESPONSE_STRUCTURE_MAP.find? (fun e => e.1 == t)).map (·.2)

/-- The `if isinstance(items, dict): items = [items]` step shared by the
target branch and the fallback scan: a single mapping at the result-array
position is wrapped into a one-element sequence. -/
def wrapSingle : JVal → JVal
  | .obj kv => .arr [.obj kv]
  | x => x

/-- The target-specific branch of `extract_items_from_response`
(lines 96-105): with `(outer_key, inner_key)` already looked up, returns
`some` of the triple it would `return`, or `none` when control falls through
to the fallback scan. -/
def targetBranch (result : List (String × JVal)) (ok ik : String) :
    Option (List JVal × Nat × Option String) :=
  match jLookup result ok with
  | some (.obj inner) =>
      match wrapSingle ((jLookup inner ik).getD (.arr [])) with
      | .arr l => some (l, l.length, none)
      | _ => none
  | _ => none

/-- The fallback scan of `extract_items_from_response` (lines 107-116):
iterate all table entries in order and return the first non-empty match. -/
def fallbackScan (result : List (String × JVal)) :
    List (String × String × String) → Option (List JVal × Nat × Option String)
  | [] => none
  | e :: rest =>
      match jLookup result e.2.1 with
      | some (.obj inner) =>
          match wrapSingle ((jLookup inner e.2.2).getD (.arr [])) with
          | .arr (x :: xs) => some (x :: xs, (x :: xs).length, none)
          | _ => fallbackScan result rest
      | _ => fallbackScan result rest

/-- The generic-key pass of `extract_items_from_response` (lines 119-125):
look for the first of the listed top-level keys holding a list or dict. -/
def genericScan (result : List (String × JVal)) :
    List String → Option (List JVal × Nat × Option String)
  | [] => none
  | k :: rest =>
      match jLookup result k with
      | some (.arr l) => some (l, l.length, none)
      | some (.obj kv) => some ([.obj kv], 1, none)
      | _ => genericScan result rest

/-- Python truthiness (`bool(v)`) for decoded JSON values: `None`, `False`,
`0`, `""`, `[]`, `{}` are falsy; everything else is truthy. -/
def pyTruthy : JVal → Bool
  | .null => false
  | .bool b => b
  | .num n => n != 0
  | .str s => s != ""
  | .arr xs => !xs.isEmpty
  | .obj kvs => !kvs.isEmpty

/-- Embeds `extract_items_from_response` from `response_parser.py` lines 74-127:
maps a decoded response object and optional `target` to
`(items, count, error)`. -/
def extract_items_from_response (result : List (String × JVal))
    (target : Option String) : List JVal × Nat × Option String :=
  if result.isEmpty then ([], 0, some "응답 없음")
  else
    match jLookup result "Law" with
    | some (.str s) => ([], 0, some s)
    | _ =>
      match target.bind (fun t =>
          (structureMapLookup t).bind (fun p => targetBranch result p.1 p.2)) with
      | some r => r
      | none =>
        match fallbackScan result RESPONSE_STRUCTURE_MAP with
        | some r => r
        | none =>
          match genericScan result ["법령", "Law", "items", "data", "result"] with
          | some r => r
          | none => ([], 0, some "데이터 구조 파싱 실패")

/-! ## Embedding of `response_cleaner.py`: the HTML sanitizer -/

/-- The character class of Python's regex `\s` on `str` patterns, which is
also the set stripped by `str.strip()`: ASCII whitespace controls plus the
Unicode whitespace characters. -/
def pyIsSpace (c : Char) : Bool :=
  c == ' ' || c == '\t' || c == '\n' || c == '\r' || c == '\x0b' || c == '\x0c' ||
  c == '\x1c' || c == '\x1d' || c == '\x1e' || c == '\x1f' || c == '\u0085' ||
  c == '\u00A0' || c == '\u1680' || ('\u2000' ≤ c && c ≤ '\u200A') ||
  c == '\u2028' || c == '\u2029' || c == '\u202F' || c == '\u205F' || c == '\u3000'

/-- One left-to-right pass of `re.sub(r'<[^>]+>', '', text)`: the second
argument is `none` outside a candidate match and `some pend` (`pend` the
reversed characters seen since the candidate `<`) inside one.  A candidate
closes at the first later `>`; with at least one character in between the
whole `<...>` is dropped, while a bare `<>` (and a `<` with no later `>`) is
kept literally, exactly as the regex engine leaves it. -/
def stripTagsAux : List Char → Option (List Char) → List Char
  | [], none => []
  | [], some pend => '<' :: pend.reverse
  | c :: rest, none =>
      if c = '<' then stripTagsAux rest (some [])
      else c :: stripTagsAux rest none
  | c :: rest, some pend =>
      if c = '>' then
        match pend with
        | [] => '<' :: '>' :: stripTagsAux rest none
        | _ :: _ => stripTagsAux rest none
      else stripTagsAux rest (some (c :: pend))

/-- Models Python `html.unescape` restricted to the HTML entities that occur
in this development (`&lt; &gt; &amp; &quot; &#39; &nbsp;`, all with their
terminating semicolon).  On every string whose ampersands either begin one of
these references or begin no character reference at all, this agrees with the
full stdlib table (none of these six is a proper prefix of a longer entity
name in the HTML5 table). -/
def pyUnescape : List Char → List Char
  | [] => []
  | '&' :: 'l' :: 't' :: ';' :: r => '<' :: pyUnescape r
  | '&' :: 'g' :: 't' :: ';' :: r => '>' :: pyUnescape r
  | '&' :: 'a' :: 'm' :: 'p' :: ';' :: r => '&' :: pyUnescape r
  | '&' :: 'q' :: 'u' :: 'o' :: 't' :: ';' :: r => '"' :: pyUnescape r
  | '&' :: '#' :: '3' :: '9' :: ';' :: r => '\'' :: pyUnescape r
  | '&' :: 'n' :: 'b' :: 's' :: 'p' :: ';' :: r => '\xa0' :: pyUnescape r
  | c :: rest => c :: pyUnescape rest

/-- Embeds `re.sub(r'\s+', ' ', text)`: every maximal run of whitespace becomes a
single ASCII space.  The flag records whether the previous character was part
of a run already replaced. -/
def collapseAux : List Char → Bool → List Char
  | [], _ => []
  | c :: rest, inRun =>
      if pyIsSpace c then
        if inRun then collapseAux rest true
        else ' ' :: collapseAux rest true
      else c :: collapseAux rest false

/-- Trailing-whitespace removal (the right half of `str.strip()`). -/
def dropTrailingWs : List Char → List Char
  | [] => []
  | c :: rest =>
      match dropTrailingWs rest with
      | [] => if pyIsSpace c then [] else [c]
      | r => c :: r

/-- Embeds `str.strip()` with no arguments: drop leading and trailing whitespace. -/
def pyStrip (cs : List Char) : List Char :=
  dropTrailingWs (cs.dropWhile pyIsSpace)

/-- Embeds `clean_html_tags` from `response_cleaner.py` lines 12-40: for a string
argument, empty input returns `""`; otherwise strip `<...>` tags, decode
HTML entities, collapse whitespace runs to single spaces and strip the ends.
(The `not isinstance(text, str)` escape concerns non-string arguments only
and is modelled by `clean_html_tags_opt` below for `None`.) -/
def clean_html_tags (text : String) : String :=
  if text = "" then ""
  else String.mk (pyStrip (collapseAux (pyUnescape (stripTagsAux text.data none)) false))

/-- Embeds `clean_html_tags` applied to `Optional[str]`: `None` is falsy, so the
guard `if not text ... return text or ""` yields the empty string. -/
def clean_html_tags_opt : Option String → String
  | none => ""
  | some s => clean_html_tags s

/-- The `fields_to_clean` guard in `clean_dict_values` line 59: a key is
left untouched iff the field list is truthy (present and non-empty) and does
not contain the key. -/
def fieldsBlocks (fields : Option (List String)) (key : String) : Bool :=
  match fields with
  | some fl => !fl.isEmpty && !(fl.contains key)
  | none => false

mutual
/-- Embeds `clean_dict_values` from `response_cleaner.py` lines 43-70, on the
members of a dict: strings are cleaned, dicts and lists recursed into,
everything else kept, subject to the `fields_to_clean` guard. -/
def clean_dict_values (fields : Option (List String)) :
    List (String × JVal) → List (String × JVal)
  | [] => []
  | (k, v) :: rest =>
      (k,
        if fieldsBlocks fields k then v
        else
          match v with
          | .str s => .str (clean_html_tags s)
          | .obj kvs => .obj (clean_dict_values fields kvs)
          | .arr xs => .arr (clean_list_values fields xs)
          | x => x) :: clean_dict_values fields rest

/-- Embeds `clean_list_values` from `response_cleaner.py` lines 73-98: clean each
dict, string or nested list element; keep the rest. -/
def clean_list_values (fields : Option (List String)) : List JVal → List JVal
  | [] => []
  | item :: rest =>
      (match item with
        | .obj kvs => JVal.obj (clean_dict_values fields kvs)
        | .str s => JVal.str (clean_html_tags s)
        | .arr xs => JVal.arr (clean_list_values fields xs)
        | x => x) :: clean_list_values fields rest
end

/-- The `fields_to_clean` list of `clean_search_result`
(`response_cleaner.py` lines 114-119). -/
def clean_search_result_fields : List String :=
  ["법령명", "법령명한글", "법령명_한글", "법령명_영문",
   "사건명", "안건명", "결정문명", "행정규칙명", "자치법규명",
   "조약명", "용어명", "해석명", "조문내용", "조문제목",
   "판결요지", "결정요지", "이유", "참조조문", "참조판례"]

/-- Embeds `clean_search_result` from `response_cleaner.py` lines 101-121, applied
to an arbitrary item as `normalize_response` does: a non-empty dict is
cleaned on the listed fields; any other value hits the
`if not data or not isinstance(data, dict): return data or {}` guard, so a
falsy value becomes the empty dict and anything else is returned unchanged. -/
def clean_search_result : JVal → JVal
  | .obj [] => .obj []
  | .obj kvs => .obj (clean_dict_values (some clean_search_result_fields) kvs)
  | v => if pyTruthy v then v else .obj []

/-- The normalized response shape produced by `normalize_response`. -/
structure NormalizedResult where
  success : Bool
  items : List JVal
  total_count : Nat
  error : Option String
  raw_keys : List String
deriving Repr

/-- Embeds `normalize_response` from `response_parser.py` lines 130-164. -/
def normalize_response (result : List (String × JVal)) (target : Option String)
    (clean_html : Bool) : NormalizedResult :=
  let r := extract_items_from_response result target
  let items := r.1
  let count := r.2.1
  let error := r.2.2
  let items := if clean_html && !items.isEmpty then items.map clean_search_result else items
  { success := decide (count > 0)
    items := items
    total_count := count
    error := error
    raw_keys := if result.isEmpty then [] else result.map (·.1) }

/-! ## Embedding of the `law_tools.py` file-system cache helpers

The file system is modelled as a partial map from paths to cache files, a
cache file as its mtime (in seconds) plus its decoded JSON content, and the
current wall clock as a second count; `hashlib.md5(...).hexdigest()` is a
fixed external digest function, so it is passed in as an arbitrary
`String → String` parameter. -/

/-- A cache file on disk: the stat mtime (seconds) and the decoded JSON
content that `json.load` would return. -/
structure CacheFile where
  mtime : Int
  content : JVal

/-- The file system visible to the cache helpers. -/
def FileSys : Type := String → Option CacheFile

/-- Removing a path, as `Path.unlink` does. -/
def fsErase (fs : FileSys) (path : String) : FileSys :=
  fun p => if p = path then none else fs p

/-- Embeds `CACHE_DAYS` from `law_tools.py` line 80. -/
def CACHE_DAYS : Int := 7

/-- Seconds per day, the unit conversion done by `timedelta(days=CACHE_DAYS)`. -/
def secondsPerDay : Int := 86400

/-- Embeds `get_cache_key` from `law_tools.py` lines 104-107:
`md5(f"{law_id}_{section}").hexdigest()`, with the digest function abstract. -/
def get_cache_key (md5hex : String → String) (law_id : String)
    (sectionArg : String) : String :=
  md5hex (law_id ++ "_" ++ sectionArg)

/-- Embeds `get_cache_path` from `law_tools.py` lines 109-111, relative to
`CACHE_DIR`. -/
def get_cache_path (cache_key : String) : String :=
  cache_key ++ ".json"

/-- Embeds `is_cache_valid` from `law_tools.py` lines 113-120: the file exists and
its mtime is strictly newer than `now - CACHE_DAYS` days. -/
def is_cache_valid (fs : FileSys) (now : Int) (cache_path : String) : Bool :=
  match fs cache_path with
  | none => false
  | some f => decide (f.mtime > now - CACHE_DAYS * secondsPerDay)

/-- Embeds `load_from_cache` from `law_tools.py` lines 144-163: missing file gives
`None`; an expired file is unlinked and gives `None`; otherwise the stored
object's `"data"` field is returned (`cache_data.get("data")`, i.e. `None`
when absent or when the stored JSON is not a dict, which in the source is an
exception caught and turned into `None`).  Returns the result together with
the file system left behind. -/
def load_from_cache (fs : FileSys) (now : Int) (cache_key : String) :
    Option JVal × FileSys :=
  let path := get_cache_path cache_key
  match fs path with
  | none => (none, fs)
  | some f =>
      if is_cache_valid fs now path then
        match f.content with
        | .obj kvs => (jLookup kvs "data", fs)
        | _ => (none, fs)
      else (none, fsErase fs path)

/-! ## Python runtime semantics used by the formatter

The formatter runs under a `try/except Exception` that converts any raised
exception into an apology string, so the embedding threads exceptions through
`Except String`, the payload being the exception text `str(e)`. -/

/-- Embeds `type(v).__name__` for decoded JSON values. -/
def pyTypeName : JVal → String
  | .null => "NoneType"
  | .bool _ => "bool"
  | .num _ => "int"
  | .str _ => "str"
  | .arr _ => "list"
  | .obj _ => "dict"

mutual
/-- Python `repr()` of a decoded JSON value (string escaping inside quotes
is not modelled; no string rendered in this development needs it). -/
def pyReprV : JVal → String
  | .null => "None"
  | .bool true => "True"
  | .bool false => "False"
  | .num n => toString n
  | .str s => "'" ++ s ++ "'"
  | .arr xs => "[" ++ pyReprList xs ++ "]"
  | .obj kvs => "\x7b" ++ pyReprMembers kvs ++ "\x7d"
/-- Comma-separated `repr`s of list elements. -/
def pyReprList : List JVal → String
  | [] => ""
  | [x] => pyReprV x
  | x :: y :: rest => pyReprV x ++ ", " ++ pyReprList (y :: rest)
/-- Comma-separated `repr`s of dict members. -/
def pyReprMembers : List (String × JVal) → String
  | [] => ""
  | [(k, v)] => "'" ++ k ++ "': " ++ pyReprV v
  | (k, v) :: m :: rest => "'" ++ k ++ "': " ++ pyReprV v ++ ", " ++ pyReprMembers (m :: rest)
end

/-- Python `str()` (also the conversion used by f-string interpolation):
strings render bare, everything else as its `repr`. -/
def pyStr : JVal → String
  | .str s => s
  | v => pyReprV v

/-- Embeds `v.get(k, dflt)`: dict lookup with default, `AttributeError` otherwise. -/
def dictGet (v : JVal) (k : String) (dflt : JVal) : Except String JVal :=
  match v with
  | .obj kvs => .ok ((jLookup kvs k).getD dflt)
  | _ => .error ("'" ++ pyTypeName v ++ "' object has no attribute 'get'")

/-- Prefix test on character lists. -/
def startsWithL : List Char → List Char → Bool
  | [], _ => true
  | _ :: _, [] => false
  | a :: as, b :: bs => a == b && startsWithL as bs

/-- Contiguous-substring test on character lists (Python `in` on `str`). -/
def infixOfL (n : List Char) : List Char → Bool
  | [] => n.isEmpty
  | h :: hs => startsWithL n (h :: hs) || infixOfL n hs

/-- Code-point lexicographic `<` on character lists (Python string `<`). -/
def strLtL : List Char → List Char → Bool
  | [], [] => false
  | [], _ :: _ => true
  | _ :: _, [] => false
  | a :: as, b :: bs => a < b || (a == b && strLtL as bs)

/-- Code-point lexicographic `≤` on character lists (Python string `<=`). -/
def strLeL : List Char → List Char → Bool
  | [], _ => true
  | _ :: _, [] => false
  | a :: as, b :: bs => a < b || (a == b && strLeL as bs)

/-- Embeds `str.replace(" ", "")`: removing every space character. -/
def removeSpaces (s : String) : String :=
  String.mk (s.data.filter (fun c => c ≠ ' '))

/-- Embeds `str.split(sep)` for a one-character separator: empty pieces kept. -/
def splitOnChar (sep : Char) : List Char → List (List Char)
  | [] => [[]]
  | c :: rest =>
      let r := splitOnChar sep rest
      if c = sep then [] :: r
      else
        match r with
        | h :: t => (c :: h) :: t
        | [] => [[c]]

/-- Embeds `k in v` for a string key: key test on dicts, substring test on strings,
`==`-membership on lists (a `str` only ever equals a `str`), `TypeError`
otherwise. -/
def pyIn (k : String) (v : JVal) : Except String Bool :=
  match v with
  | .obj kvs => .ok (jHasKey kvs k)
  | .str s => .ok (infixOfL k.data s.data)
  | .arr xs => .ok (xs.any fun x => match x with | .str s => s == k | _ => false)
  | _ => .error ("argument of type '" ++ pyTypeName v ++ "' is not iterable")

/-- Embeds `v[k]` for a string key (only reached after `k in v` succeeded):
dict indexing; `TypeError` for the other types. -/
def pySubscript (v : JVal) (k : String) : Except String JVal :=
  match v with
  | .obj kvs =>
      match jLookup kvs k with
      | some x => .ok x
      | none => .error ("KeyError: '" ++ k ++ "'")
  | .str _ => .error "string indices must be integers"
  | .arr _ => .error "list indices must be integers or slices, not str"
  | _ => .error ("'" ++ pyTypeName v ++ "' object is not subscriptable")

/-- Python `a or b` on decoded values. -/
def pyOr (a b : JVal) : JVal := if pyTruthy a then a else b

/-- Embeds `str.strip()` lifted to `String`. -/
def pyStripStr (s : String) : String := String.mk (pyStrip s.data)

/-- The ubiquitous `str(x).strip()` idiom. -/
def strStrip (v : JVal) : String := pyStripStr (pyStr v)

/-- Embeds `str.lower()`; Python lowercases the full Unicode range, `Char.toLower`
only ASCII, and the two agree on every string this code path lowercases
(ASCII and Korean, which has no case). -/
def pyLower (s : String) : String := String.mk (s.data.map Char.toLower)

/-- Embeds `len(v)`. -/
def pyLen : JVal → Except String Nat
  | .str s => .ok s.length
  | .arr xs => .ok xs.length
  | .obj kvs => .ok kvs.length
  | v => .error ("object of type '" ++ pyTypeName v ++ "' has no len()")

/-- Embeds `v[a:b]` (and `v[:b]` as `a = 0`). -/
def pySliceRange (v : JVal) (a b : Nat) : Except String JVal :=
  match v with
  | .str s => .ok (.str (String.mk ((s.data.drop a).take (b - a))))
  | .arr xs => .ok (.arr ((xs.drop a).take (b - a)))
  | _ => .error ("'" ++ pyTypeName v ++ "' object is not subscriptable")

/-- Embeds `for x in v`: list elements, string characters (as 1-character strings),
dict keys; `TypeError` otherwise. -/
def pyIter : JVal → Except String (List JVal)
  | .arr xs => .ok xs
  | .str s => .ok (s.data.map (fun c => .str (String.mk [c])))
  | .obj kvs => .ok (kvs.map (fun p => JVal.str p.1))
  | v => .error ("'" ++ pyTypeName v ++ "' object is not iterable")

/-- ASCII decimal digit test (`str.isdigit` on the strings arising here). -/
def isDigitChar (c : Char) : Bool := '0' ≤ c && c ≤ '9'

/-- Embeds `v.isdigit()`. -/
def pyIsdigit : JVal → Except String Bool
  | .str s => .ok (!s.data.isEmpty && s.data.all isDigitChar)
  | v => .error ("'" ++ pyTypeName v ++ "' object has no attribute 'isdigit'")

/-- Integer literal parsing as `int(str)` does: optional surrounding
whitespace, optional sign, at least one digit. -/
def parseIntStr (s : String) : Option Int :=
  let cs := pyStrip s.data
  let (sign, ds) : Int × List Char :=
    match cs with
    | '-' :: rest => (-1, rest)
    | '+' :: rest => (1, rest)
    | rest => (1, rest)
  if ds.isEmpty || !ds.all isDigitChar then none
  else some (sign * (ds.foldl (fun acc c => acc * 10 + (c.toNat - '0'.toNat)) (0 : Nat) : Nat))

/-- Embeds `int(v)`. -/
def pyInt : JVal → Except String Int
  | .num n => .ok n
  | .bool b => .ok (if b then 1 else 0)
  | .str s =>
      match parseIntStr s with
      | some n => .ok n
      | none => .error ("invalid literal for int() with base 10: '" ++ s ++ "'")
  | v => .error ("int() argument must be a string, a bytes-like object or a real number, not '"
      ++ pyTypeName v ++ "'")

/-- Python `==` between the hashable (scalar) decoded values; `True == 1`
and `False == 0` as in Python.  Containers never reach this comparison in
the embedded code paths (hashability is checked first). -/
def pyEqScalar : JVal → JVal → Bool
  | .null, .null => true
  | .bool a, .bool b => a == b
  | .bool a, .num n => (if a then (1 : Int) else 0) == n
  | .num n, .bool a => n == (if a then (1 : Int) else 0)
  | .num a, .num b => a == b
  | .str a, .str b => a == b
  | _, _ => false

/-- Hashability: lists and dicts are unhashable. -/
def pyHashable : JVal → Bool
  | .arr _ => false
  | .obj _ => false
  | _ => true

/-- Python `<` between decoded values (as used on sort keys): strings by
code point, numbers (and bools as 0/1) numerically, `TypeError` otherwise. -/
def pyLt : JVal → JVal → Except String Bool
  | .str a, .str b => .ok (strLtL a.data b.data)
  | .num a, .num b => .ok (decide (a < b))
  | .bool a, .num b => .ok (decide ((if a then (1 : Int) else 0) < b))
  | .num a, .bool b => .ok (decide (a < (if b then (1 : Int) else 0)))
  | .bool a, .bool b => .ok (decide ((if a then (1 : Int) else 0) < (if b then (1 : Int) else 0)))
  | a, b => .error ("'<' not supported between instances of '" ++ pyTypeName b
      ++ "' and '" ++ pyTypeName a ++ "'")

/-- Insertion step of a stable sort with a fallible `≤`: the new element
(originally earlier in the list) goes before the first element not below it,
hence before every equal element, which is Python's stability contract. -/
def insertLeM {α : Type} (le : α → α → Except String Bool) (x : α) :
    List α → Except String (List α)
  | [] => .ok [x]
  | y :: ys => do
      let b ← le x y
      if b then .ok (x :: y :: ys)
      else do
        let r ← insertLeM le x ys
        .ok (y :: r)

/-- Stable sort (the result Python's stable `sorted` produces for the same
total preorder; comparison failures surface as the exception the comparison
raises, checked pairwise in list order rather than in timsort's order). -/
def sortLeM {α : Type} (le : α → α → Except String Bool) :
    List α → Except String (List α)
  | [] => .ok []
  | x :: xs => do
      let r ← sortLeM le xs
      insertLeM le x r

/-! ## Embedding of `_find_mst_from_law_id` (`law_tools.py` lines 3048-3097)

The one upstream call the formatter can make: `_make_legislation_request
("law", {"query": law_name, "display": 5})`.  The network is abstracted as an
oracle from the query value to the decoded response, `none` standing for the
request raising (network failure or upstream error), which the function's
`except` turns into `None`. -/

/-- The upstream law-search response as a function of the query value. -/
def Oracle : Type := JVal → Option JVal

/-- Embeds `clean_html_tags` applied to an arbitrary decoded value, following the
`if not text or not isinstance(text, str): return text or ""` guard: strings
are cleaned, truthy non-strings returned unchanged, falsy ones become `""`.
(`law_tools.py` imports its `clean_html_tags` from `utils/law_tools_utils.py`,
which is not in the tree; the spec describes a single HTML sanitizer, so the
`response_cleaner.py` one is used — no theorem below depends on the
difference, if any.) -/
def cleanHtmlTagsV : JVal → JVal
  | .str s => .str (clean_html_tags s)
  | v => if pyTruthy v then v else .str ""

/-- The `for law in laws` scan of `_find_mst_from_law_id` (lines 3084-3091):
first dict whose `법령ID` (falling back to `ID`) stringifies to the wanted id
and whose `법령일련번호` (falling back to `MST`) is truthy wins. -/
def findMstScan (law_id : JVal) : List JVal → Option String
  | [] => none
  | law :: rest =>
      match law with
      | .obj kvs =>
          let found_id := pyStr ((jLookup kvs "법령ID").getD ((jLookup kvs "ID").getD (.str "")))
          if found_id == pyStr law_id then
            let mst := (jLookup kvs "법령일련번호").getD ((jLookup kvs "MST").getD (.str ""))
            if pyTruthy mst then some (pyStr mst)
            else findMstScan law_id rest
          else findMstScan law_id rest
      | _ => findMstScan law_id rest

/-- The body of `_find_mst_from_law_id` before its `except Exception`
handler. -/
def findMstBody (oracle : Oracle) (law_id : JVal) (item : JVal) :
    Except String (Option String) := do
  let law_name ← do
    let a ← dictGet item "법령명한글" .null
    if pyTruthy a then pure a else do
    let b ← dictGet item "법령명" .null
    if pyTruthy b then pure b else do
    let c ← dictGet item "삼단비교법령명" .null
    if pyTruthy c then pure c else dictGet item "3단비교법령명" .null
  if !pyTruthy law_name then pure none else do
  let law_name_clean := cleanHtmlTagsV law_name
  match oracle law_name_clean with
  | none => throw "API 요청 실패"
  | some search_data => do
      let hasLS ← if pyTruthy search_data then pyIn "LawSearch" search_data else pure false
      if hasLS then do
        let ls ← pySubscript search_data "LawSearch"
        let laws0 ← dictGet ls "law" (.arr [])
        let laws : List JVal :=
          match laws0 with
          | .arr xs => xs
          | v => if pyTruthy v then [v] else []
        pure (findMstScan law_id laws)
      else pure none

/-- Embeds `_find_mst_from_law_id` from `law_tools.py` lines 3048-3097: any raised
exception becomes `None`. -/
def find_mst_from_law_id (oracle : Oracle) (law_id : JVal) (item : JVal) :
    Option String :=
  match findMstBody oracle law_id item with
  | .ok r => r
  | .error _ => none

/-! ## Embedding of `_format_law_service_history` (`law_tools.py` lines 307-488) -/

/-- Modelled from the spec: `CHANGE_DETAILS`, imported by `law_tools.py`
from `tools/law_config.py`, which is not under `src/`.  It is a static
mapping from change reasons to `{'icon', 'desc'}` pairs, read only through
`CHANGE_DETAILS.get(reason, {'icon': '[변경]', 'desc': '조문 변경'})`; it is
modelled as the empty table, so every lookup takes the default — any fixed
table keeps every property proved here. -/
def CHANGE_DETAILS : List (JVal × String × String) := []

/-- Embeds `CHANGE_DETAILS.get(key, default)`: unhashable keys raise. -/
def changeDetailsGet (key : JVal) : Except String (String × String) :=
  if !pyHashable key then
    throw ("unhashable type: '" ++ pyTypeName key ++ "'")
  else
    pure (((CHANGE_DETAILS.find? (fun p => pyEqScalar p.1 key)).map (·.2)).getD
      ("[변경]", "조문 변경"))

/-- Embeds `get_context_by_period` (nested function, `law_tools.py` lines 388-416):
a period/change-type classifier over the extracted year. -/
def get_context_by_period (year : JVal) (change_type : JVal) :
    Except String String := do
  let isd ← pyIsdigit year
  let year_int : Int ← if isd then pyInt year else pure 2024
  if pyEqScalar change_type (.str "제정") then
    if year_int ≤ 1960 then pure "국가 기본 법제 체계 구축 시기"
    else if year_int ≤ 1980 then pure "경제 발전과 사회 변화에 따른 법제 정비"
    else if year_int ≤ 2000 then pure "민주화와 국제화에 따른 법제 현대화"
    else pure "디지털 시대와 글로벌 기준에 맞춘 새로운 법적 근거 마련"
  else if pyEqScalar change_type (.str "전부개정") then
    if year_int ≤ 1980 then pure "사회경제 구조 변화에 따른 법령 체계 전면 재편"
    else if year_int ≤ 2000 then pure "국제 기준 부합과 규제 합리화를 위한 전면 개정"
    else pure "4차 산업혁명과 디지털 전환에 따른 법체계 혁신"
  else if pyEqScalar change_type (.str "일부개정") then
    if year_int ≥ 2020 then pure "COVID-19 대응 및 디지털 뉴딜 정책 반영"
    else if year_int ≥ 2010 then pure "규제 개선과 국민 편의 증진을 위한 부분 개정"
    else pure "법령 운용상 나타난 문제점 보완 및 개선"
  else pure "법령 적용상 문제점 해결 또는 명확화"

/-- The duplicate-removal pass of `_format_law_service_history`
(lines 324-343): key `f"{mst}_{시행일자}_{제개정구분명}"` from the nested
`법령정보`, first occurrence kept. -/
def dedupHistory (seen : List String) (acc : List JVal) :
    List JVal → Except String (List JVal)
  | [] => pure acc.reverse
  | item :: rest => do
      let law_info ← dictGet item "법령정보" (.obj [])
      let mst ← dictGet law_info "법령일련번호" (.str "")
      let eff ← dictGet law_info "시행일자" (.str "")
      let rev ← dictGet law_info "제개정구분명" (.str "")
      let dkey := pyStr mst ++ "_" ++ pyStr eff ++ "_" ++ pyStr rev
      if seen.contains dkey then dedupHistory seen acc rest
      else dedupHistory (dkey :: seen) (item :: acc) rest

/-- The `f"{s[:4]}-{s[4:6]}-{s[6:8]}" if len(s) == 8 else s` date formatting
(lines 383-385), kept as a value for later interpolation. -/
def formatDate8 (v : JVal) : Except String JVal := do
  let n ← pyLen v
  if n == 8 then do
    let a ← pySliceRange v 0 4
    let b ← pySliceRange v 4 6
    let c ← pySliceRange v 6 8
    pure (.str (pyStr a ++ "-" ++ pyStr b ++ "-" ++ pyStr c))
  else pure v

/-- One entry of the history loop (lines 366-441). -/
def historyEntry (i : Nat) (item : JVal) : Except String String := do
  let joInfo ← dictGet item "조문정보" (.obj [])
  let lawInfo ← dictGet item "법령정보" (.obj [])
  let reason ← dictGet joInfo "변경사유" (.str "")
  let changeDate ← dictGet joInfo "조문변경일" (.str "")
  let joNo ← dictGet joInfo "조문번호" (.str "")
  let lawSerial ← dictGet lawInfo "법령일련번호" (.str "")
  let effDate ← dictGet lawInfo "시행일자" (.str "")
  let revName ← dictGet lawInfo "제개정구분명" (.str "")
  let promDate ← dictGet lawInfo "공포일자" (.str "")
  let ministry ← dictGet lawInfo "소관부처명" (.str "")
  let fChange ← formatDate8 changeDate
  let fEff ← formatDate8 effDate
  let fProm ← formatDate8 promDate
  let nChange ← pyLen changeDate
  let change_year ← if nChange ≥ 4 then pySliceRange changeDate 0 4 else pure (.str "2024")
  let ci ← changeDetailsGet reason
  let context ← get_context_by_period change_year reason
  let mut r := ""
  r := r ++ "**" ++ toString i ++ ". " ++ ci.1 ++ " " ++ pyStr reason ++ "** ("
      ++ pyStr fChange ++ ")\n"
  r := r ++ "   변경 배경: " ++ context ++ "\n"
  r := r ++ "   시행일자: " ++ pyStr fEff ++ "\n"
  r := r ++ "   제개정구분: " ++ pyStr revName ++ "\n"
  r := r ++ "   공포일자: " ++ pyStr fProm ++ "\n"
  if pyTruthy ministry then
    r := r ++ "   소관부처: " ++ pyStr ministry ++ "\n"
  r := r ++ "   법령일련번호: " ++ pyStr lawSerial ++ "\n"
  let joLink ← dictGet joInfo "조문링크" (.str "")
  if pyTruthy joLink then do
    let sl ← pySliceRange joNo 0 4
    let n ← pyInt sl
    r := r ++ "   상세조회: get_law_article_by_key(mst=\"" ++ pyStr lawSerial
        ++ "\", target=\"eflaw\", article_key=\"제" ++ toString n ++ "조\")\n"
  pure (r ++ "\n")

/-- The change-frequency analysis loop (lines 448-458): distinct years in
first-seen order and per-reason counts in first-seen order. -/
def historyStats (years : List JVal) (counts : List (JVal × Nat)) :
    List JVal → Except String (List JVal × List (JVal × Nat))
  | [] => pure (years.reverse, counts)
  | item :: rest => do
      let joInfo ← dictGet item "조문정보" (.obj [])
      let changeDate ← dictGet joInfo "조문변경일" (.str "")
      let reason ← dictGet joInfo "변경사유" (.str "")
      let n ← pyLen changeDate
      let years ← if n ≥ 4 then do
          let y ← pySliceRange changeDate 0 4
          if !pyHashable y then throw ("unhashable type: '" ++ pyTypeName y ++ "'")
          else if years.any (fun z => pyEqScalar z y) then pure years
          else pure (y :: years)
        else pure years
      let counts ← if pyTruthy reason then do
          if !pyHashable reason then
            throw ("unhashable type: '" ++ pyTypeName reason ++ "'")
          else if counts.any (fun p => pyEqScalar p.1 reason) then
            pure (counts.map (fun p =>
              if pyEqScalar p.1 reason then (p.1, p.2 + 1) else p))
          else pure (counts ++ [(reason, 1)])
        else pure counts
      historyStats years counts rest

/-- Embeds `', '.join(xs)`: every element must be a string. -/
def pyJoinComma : List JVal → Except String String
  | [] => pure ""
  | [x] =>
      match x with
      | .str s => pure s
      | v => throw ("sequence item 0: expected str instance, " ++ pyTypeName v ++ " found")
  | x :: y :: rest => do
      match x with
      | .str s => do
          let r ← pyJoinComma (y :: rest)
          pure (s ++ ", " ++ r)
      | v => throw ("sequence item 0: expected str instance, " ++ pyTypeName v ++ " found")

/-- The body of `_format_law_service_history` before its `except` handler. -/
def formatLawServiceHistoryBody (data : List (String × JVal))
    (search_query : String) : Except String String := do
  if !jHasKey data "LawService" then
    pure ("'" ++ search_query ++ "'에 대한 조문 변경이력을 찾을 수 없습니다.\n\n대안 방법:\n1. **법령ID 확인**: search_law(\"법령명\")로 정확한 법령ID 확인\n2. **조번호 형식**: 6자리 형식 사용 (예: \"000100\"은 제1조)\n3. **버전 비교**: compare_law_versions(\"법령명\")로 전체 변경 내역 확인")
  else do
  let service_data := (jLookup data "LawService").getD .null
  let law_name ← dictGet service_data "법령명한글" (.str "법령명 없음")
  let law_id ← dictGet service_data "법령ID" (.str "")
  let tc0 ← dictGet service_data "totalCnt" (.num 0)
  let total_count0 ← pyInt tc0
  let history_list0 ← dictGet service_data "law" (.arr [])
  let (history_list, total_count) ←
    if pyTruthy history_list0 then do
      let items ← pyIter history_list0
      let unique ← dedupHistory [] [] items
      pure (unique, (unique.length : Int))
    else do
      let items : List JVal := match history_list0 with | .arr xs => xs | _ => []
      pure (items, total_count0)
  if history_list.isEmpty then
    pure ("'" ++ search_query ++ "'에 대한 변경이력이 없습니다.\n\n**데이터 부재 원인 분석**:\n- 해당 조문이 제정 이후 변경되지 않았을 가능성\n- 법령ID나 조번호 형식 오류 가능성\n- 최근 제정된 법령으로 변경 이력이 짧을 가능성\n\n**추천 대안**:\n1. **전체 법령 버전 비교**: compare_law_versions(\"" ++ pyStr law_name ++ "\")\n2. **법령 연혁 검색**: search_law_history(\"" ++ pyStr law_name ++ "\")\n3. **조문 내용 확인**: get_law_article_by_key(mst=\"" ++ pyStr law_id ++ "\", article_key=\"제N조\")")
  else do
  let mut r := "**" ++ pyStr law_name ++ " 조문 변경이력** (총 " ++ toString total_count ++ "건)\n"
  r := r ++ "**검색조건:** " ++ search_query ++ "\n"
  r := r ++ "🏛️ **법령ID:** " ++ pyStr law_id ++ "\n"
  r := r ++ String.mk (List.replicate 60 '=') ++ "\n\n"
  let keyed ← history_list.mapM (fun x => do
    let a ← dictGet x "조문정보" (.obj [])
    let k ← dictGet a "조문변경일" (.str "")
    pure (k, x))
  let sorted_pairs ← sortLeM (fun p q => do
    let b ← pyLt p.1 q.1
    pure (!b)) keyed
  let sorted_history := sorted_pairs.map (·.2)
  let mut i := 1
  for item in sorted_history do
    let e ← historyEntry i item
    r := r ++ e
    i := i + 1
  r := r ++ "\n" ++ String.mk (List.replicate 60 '=') ++ "\n"
  r := r ++ "**정책 변화 패턴 분석:**\n"
  let (years, counts) ← historyStats [] [] sorted_history
  if !years.isEmpty then do
    let ys ← sortLeM (fun a b => do
      let lt ← pyLt a b
      pure (!lt)) years
    let recent := ys.take 3
    let j ← pyJoinComma recent
    r := r ++ "- 활발한 개정 기간: " ++ j ++ "년\n"
  if !counts.isEmpty then do
    let cs ← sortLeM (fun p q : JVal × Nat => pure (decide (q.2 ≤ p.2))) counts
    let main_changes := cs.take 2
    let parts := main_changes.map (fun p => pyStr p.1 ++ "(" ++ toString p.2 ++ "회)")
    r := r ++ "- 주요 변경 유형: " ++ String.intercalate ", " parts ++ "\n"
  r := r ++ "- 법무 영향: 조문 변경에 따른 업무 프로세스 재검토 필요\n"
  r := r ++ "- 리스크 평가: 변경 내용의 소급 적용 및 경과 조치 확인 권장\n"
  r := r ++ "\n**활용 가이드:**\n"
  r := r ++ "• 특정 시점의 조문 내용: get_law_article_by_key(mst=\"법령일련번호\", target=\"eflaw\", article_key=\"조문번호\")\n"
  r := r ++ "• 법령 전체 버전 비교: compare_law_versions(\"" ++ pyStr law_name ++ "\")\n"
  r := r ++ "• 관련 해석**: search_law_interpretation(\"" ++ pyStr law_name ++ "\")\n"
  r := r ++ "\n**과도기 적용 주의사항:**\n"
  r := r ++ "- 개정 법령의 소급 적용 여부 및 경과 조치 확인 필수\n"
  r := r ++ "- 시행일 이전 체결된 계약 등에 대한 적용 기준 검토\n"
  r := r ++ "- 관련 하위 법령(시행령, 시행규칙) 개정 일정 확인\n"
  pure r

/-- Embeds `_format_law_service_history` from `law_tools.py` lines 307-488. -/
def format_law_service_history (data : List (String × JVal))
    (search_query : String) : String :=
  match formatLawServiceHistoryBody data search_query with
  | .ok s => s
  | .error e =>
      "'" ++ search_query ++ "' 조문 변경이력 포맷팅 중 오류가 발생했습니다: " ++ e

/-! ## Embedding of `_format_search_results` (`law_tools.py` lines 598-1122) -/

/-- Embeds `re.sub(r'<[^>]+>', '', v)` on a value that must be a string. -/
def reSubTags (v : JVal) : Except String String :=
  match v with
  | .str s => pure (String.mk (stripTagsAux s.data none))
  | v => throw ("expected string or bytes-like object, got '" ++ pyTypeName v ++ "'")

/-- Outcome of the `target_data` selection chain: either the early return
through `_format_law_service_history`, or the raw `target_data` value. -/
inductive SelOut where
  | retEarly (s : String)
  | tdata (v : JVal)

/-- The thirteen targets excluded from the generic `LawSearch` branch
(line 677). -/
def lawSearchExcluded : List String :=
  ["thdCmp", "licbyl", "trty", "lsRlt", "ordinfd", "ordin", "admrul",
   "admrulOldAndNew", "lnkLsOrd", "prec", "expc", "decc", "couseLs"]

/-- The committee decision targets (line 704). -/
def committeeTargets : List String :=
  ["ppc", "fsc", "ftc", "acr", "nlrc", "ecc", "sfc", "nhrck", "kcc",
   "iaciac", "oclt", "eiac"]

/-- The `target_data` selection `if/elif` chain of `_format_search_results`
(lines 601-755). -/
def selectTargetData (data : List (String × JVal)) (target : String)
    (search_query : String) : Except String SelOut := do
  let sub : String → JVal := fun k => (jLookup data k).getD .null
  if target == "oldAndNew" && jHasKey data "OldAndNewLawSearch" then do
    let td ← dictGet (sub "OldAndNewLawSearch") "oldAndNew" (.arr [])
    pure (.tdata td)
  else if target == "thdCmp" && jHasKey data "thdCmpLawSearch" then do
    let td ← dictGet (sub "thdCmpLawSearch") "thdCmp" (.arr [])
    pure (.tdata td)
  else if target == "licbyl" && jHasKey data "licBylSearch" then do
    let td ← dictGet (sub "licBylSearch") "licbyl" (.arr [])
    pure (.tdata td)
  else if target == "trty" && jHasKey data "TrtySearch" then do
    let td ← dictGet (sub "TrtySearch") "Trty" (.arr [])
    pure (.tdata td)
  else if target == "lsRlt" && jHasKey data "lsRltSearch" then do
    let law_item ← dictGet (sub "lsRltSearch") "법령" (.obj [])
    match law_item with
    | .obj kvs =>
        if !kvs.isEmpty then do
          let related ← dictGet law_item "관련법령" (.arr [])
          match related with
          | .arr xs => pure (.tdata (.arr xs))
          | _ => pure (.tdata (.arr []))
        else pure (.tdata (.arr []))
    | _ => pure (.tdata (.arr []))
  else if target == "lsRlt" && jHasKey data "Law" then
    -- both subbranches of lines 630-636 set `target_data = []`
    pure (.tdata (.arr []))
  else if target == "ordinfd" && jHasKey data "ordinFdList" then do
    let td ← dictGet (sub "ordinFdList") "ordinFd" (.arr [])
    pure (.tdata td)
  else if target == "ordin" && jHasKey data "OrdinSearch" then do
    let td ← dictGet (sub "OrdinSearch") "law" (.arr [])
    pure (.tdata td)
  else if target == "admrul" && jHasKey data "AdmRulSearch" then do
    let td ← dictGet (sub "AdmRulSearch") "admrul" (.arr [])
    pure (.tdata td)
  else if target == "admrulOldAndNew" && jHasKey data "OldAndNewLawSearch" then do
    let td ← dictGet (sub "OldAndNewLawSearch") "oldAndNew" (.arr [])
    match td with
    | .arr xs => pure (.tdata (.arr xs))
    | _ => pure (.tdata (.arr []))
  else if target == "lnkLsOrd" && jHasKey data "OrdinSearch" then do
    let td ← dictGet (sub "OrdinSearch") "law" (.arr [])
    pure (.tdata td)
  else if target == "prec" && jHasKey data "PrecSearch" then do
    let td ← dictGet (sub "PrecSearch") "prec" (.arr [])
    pure (.tdata td)
  else if target == "expc" && jHasKey data "Expc" then do
    let td ← dictGet (sub "Expc") "expc" (.arr [])
    pure (.tdata td)
  else if target == "decc" && jHasKey data "Decc" then do
    let td ← dictGet (sub "Decc") "decc" (.arr [])
    pure (.tdata td)
  else if target == "couseLs" && jHasKey data "맞춤형분류" then do
    let law_data ← dictGet (sub "맞춤형분류") "법령" (.obj [])
    pure (.tdata (if pyTruthy law_data then .arr [law_data] else .arr []))
  else if jHasKey data "LawSearch" && !lawSearchExcluded.contains target then do
    let ls := sub "LawSearch"
    if target == "elaw" || target == "eflaw" || target == "lsHstInf" ||
        target == "lsHistory" || target == "lnkLs" || target == "lsAbrv" ||
        target == "delHst" then do
      let td ← dictGet ls "law" (.arr [])
      pure (.tdata td)
    else if target == "eflawjosub" then do
      let td ← dictGet ls "eflawjosub" (.arr [])
      pure (.tdata td)
    else if committeeTargets.contains target || target == "detc" then do
      let td ← dictGet ls target (.arr [])
      match td with
      | .str _ => pure (.tdata (.arr []))  -- both string subbranches give []
      | _ => pure (.tdata td)
    else do
      let td ← dictGet ls target (.arr [])
      pure (.tdata td)
  else if jHasKey data "LawService" then
    if target == "lsJoHstInf" then
      pure (.retEarly (format_law_service_history data search_query))
    else do
      let td ← dictGet (sub "LawService") target (.arr [])
      match td with
      | .arr xs => pure (.tdata (.arr xs))
      | v => pure (.tdata (if pyTruthy v then .arr [v] else .arr []))
  else if jHasKey data "법령" then do
    let td := sub "법령"
    match td with
    | .obj kvs =>
        if jHasKey kvs "조문" then
          pure (.tdata ((jLookup kvs "조문").getD .null))
        else pure (.tdata (.arr [td]))
    | _ => pure (.tdata td)
  else if jHasKey data target then
    pure (.tdata (sub target))
  else
    match data with
    | [(_, v)] => pure (.tdata v)
    | _ => pure (.tdata (.arr []))

/-- The `isinstance` normalization of `target_data` (lines 757-772): dicts
wrap to a singleton, strings / `None` / everything else non-list becomes the
empty list. -/
def normalizeTargetData : JVal → List JVal
  | .arr xs => xs
  | .obj kvs => [.obj kvs]
  | _ => []

/-- Embeds `sort_key` of the exact-match-first ordering for law searches
(lines 792-810), with the normalized query precomputed. -/
def lawSortKey (qn : String) (item : JVal) : Except String (Nat × String) :=
  match item with
  | .obj kvs => do
      let title := pyOr (pyOr ((jLookup kvs "법령명한글").getD (.str ""))
          ((jLookup kvs "법령명").getD (.str "")))
          (pyOr ((jLookup kvs "법령명영문").getD (.str "")) (.str ""))
      match title with
      | .str t =>
          let tn := pyLower (removeSpaces t)
          let tn := String.mk (stripTagsAux tn.data none)
          if tn == qn then pure (0, t)
          else if startsWithL qn.data tn.data then pure (1, t)
          else if infixOfL qn.data tn.data then pure (2, t)
          else pure (3, t)
      | v => throw ("'" ++ pyTypeName v ++ "' object has no attribute 'replace'")
  | _ => pure (3, "")

/-- Embeds `sorted(target_data, key=sort_key)` (line 812): keys computed first in
list order, then a stable ascending sort on `(rank, title)` tuples. -/
def lawSort (search_query : String) (items : List JVal) :
    Except String (List JVal) := do
  let qn := pyLower (removeSpaces search_query)
  let keyed ← items.mapM (fun it => do
    let k ← lawSortKey qn it
    pure (k, it))
  let sorted_pairs ← sortLeM (fun a b : (Nat × String) × JVal =>
    pure (a.1.1 < b.1.1 || (a.1.1 == b.1.1 && strLeL a.1.2.data b.1.2.data))) keyed
  pure (sorted_pairs.map (·.2))

/-- Embeds `title_keys` (lines 827-844), duplicates included. -/
def titleKeys : List String :=
  ["법령명한글", "법령명", "제목", "title", "명칭", "name",
   "현행법령명", "법령명국문", "국문법령명", "lawNm", "lawName",
   "법령명전체", "법령제목", "lawTitle",
   "신구법명", "법령약칭명", "조약명한글", "조약명",
   "별표명", "서식명", "별표서식명",
   "삼단비교법령명", "3단비교법령명",
   "관련법령명", "기준법령명", "분류명", "행정규칙명", "신구법명",
   "자치법규명", "안건명", "사건명", "재판사건명"]

/-- Embeds `detail_fields` (lines 889-904), in insertion order. -/
def detailFields : List (String × List String) :=
  [("법령ID", ["법령ID", "ID", "lawId", "mstSeq"]),
   ("법령일련번호", ["법령일련번호", "MST", "mst", "lawMst", "법령MST", "일련번호"]),
   ("신구법일련번호", ["신구법일련번호", "신구법MST"]),
   ("행정규칙일련번호", ["행정규칙일련번호", "행정규칙MST"]),
   ("조약일련번호", ["조약일련번호", "조약MST"]),
   ("자치법규일련번호", ["자치법규일련번호", "자치법규MST"]),
   ("법령약칭명", ["법령약칭명", "약칭명", "abbreviation"]),
   ("공포일자", ["공포일자", "date", "announce_date", "공포일", "promulgateDate", "공포년월일"]),
   ("시행일자", ["시행일자", "ef_date", "effective_date", "시행일", "enforceDate", "시행년월일"]),
   ("삭제일자", ["삭제일자"]),
   ("구분명", ["구분명"]),
   ("소관부처명", ["소관부처명", "ministry", "department", "소관부처", "ministryNm", "주무부처"]),
   ("법령구분명", ["법령구분명", "type", "law_type", "법령구분", "lawType", "법령종류"]),
   ("제개정구분명", ["제개정구분명", "revision", "제개정구분", "revisionType", "개정구분"])]

/-- The five fields `detail_fields.update(...)` appends for `thdCmp`
(lines 907-914). -/
def thdCmpExtraFields : List (String × List String) :=
  [("인용조문수", ["인용조문수", "인용조문", "citationCount", "citation"]),
   ("위임조문수", ["위임조문수", "위임조문", "delegationCount", "delegation"]),
   ("상위법령명", ["상위법령명", "상위법령", "upperLaw", "parentLaw"]),
   ("하위법령명", ["하위법령명", "하위법령", "lowerLaw", "childLaw"]),
   ("비교일자", ["비교일자", "비교일", "comparisonDate", "compareDate"])]

/-- The `mst_keys` probe list for `thdCmp` (lines 1054-1059), duplicate
entry included. -/
def thdCmpMstKeys : List String :=
  ["법령일련번호", "MST", "mst", "lawMst", "법령MST",
   "일련번호", "법령일련번호(MST)", "법령일련번호MST",
   "thdCmpMST", "3단비교MST", "비교법령일련번호",
   "법령일련번호MST", "법령일련번호_MST"]

/-- The `for key in keys: if key in item and item[key]: take item[key]`
probe loop used for detail values, MSTs and ids; the Python for-else leaves
`None` when nothing matches. -/
def fieldScan (item : JVal) : List String → Except String JVal
  | [] => pure .null
  | k :: ks => do
      let hin ← pyIn k item
      if hin then do
        let v ← pySubscript item k
        if pyTruthy v then pure v else fieldScan item ks
      else fieldScan item ks

/-- The `title_keys` probe (lines 861-865): takes the first truthy value
whose stripped string form is non-empty. -/
def titleScan (item : JVal) : List String → Except String (Option String)
  | [] => pure none
  | k :: ks => do
      let hin ← pyIn k item
      if hin then do
        let v ← pySubscript item k
        if pyTruthy v then
          let s := strStrip v
          if s ≠ "" then pure (some s) else titleScan item ks
        else titleScan item ks
      else titleScan item ks

/-- Truthiness of Python's `Optional[str]`-valued `thd_mst`. -/
def optTruthy : Option String → Bool
  | none => false
  | some s => s ≠ ""

/-- The `thdCmp` MST probe (lines 1061-1065): assigns the stripped string of
every truthy hit, breaking only when it is non-empty, so a whitespace-only
hit leaves a falsy `""` behind. -/
def thdMstScan (item : JVal) (cur : Option String) :
    List String → Except String (Option String)
  | [] => pure cur
  | k :: ks => do
      let hin ← pyIn k item
      if hin then do
        let v ← pySubscript item k
        if pyTruthy v then
          let s := strStrip v
          if s ≠ "" then pure (some s)
          else thdMstScan item (some s) ks
        else thdMstScan item cur ks
      else thdMstScan item cur ks

/-- The `소관부처명` dedup handling (lines 941-956). -/
def ministryValue (raw : JVal) : Except String String :=
  match raw with
  | .arr xs =>
      -- `dict.fromkeys(raw_value)` hashes every element
      match xs.find? (fun x => !pyHashable x) with
      | some bad => throw ("unhashable type: '" ++ pyTypeName bad ++ "'")
      | none =>
          match xs with
          | [] => pure ""
          | x :: _ => pure (strStrip x)  -- first of the order-preserving dedup
  | .str s =>
      if s.data.contains ',' then
        -- split on commas, strip, drop empties, dedup keeps first
        let parts := ((splitOnChar ',' s.data).map (fun p => String.mk (pyStrip p))).filter
          (fun p => p ≠ "")
        pure (parts.headD "")
      else pure (pyStripStr s)
  | v => pure (strStrip v)

/-- The per-target detail-lookup guide block (lines 988-1099).  The oracle is
consulted only inside the `thdCmp` branch, through
`find_mst_from_law_id`. -/
def itemGuide (oracle : Oracle) (target : String) (item mst law_id : JVal) :
    Except String String := do
  if target == "oldAndNew" then do
    let cm ← fieldScan item ["신구법일련번호", "신구법MST", "MST"]
    if pyTruthy cm then
      pure ("   상세조회: get_old_and_new_law_detail(mst=\"" ++ pyStr cm ++ "\")\n")
    else pure "   참고: 상세조회용 일련번호를 확인할 수 없습니다.\n"
  else if target == "admrulOldAndNew" then do
    let ci ← fieldScan item ["신구법일련번호", "신구법MST"]
    if pyTruthy ci then
      pure ("   상세조회: get_administrative_rule_comparison_detail(comparison_id=\""
        ++ pyStr ci ++ "\")\n")
    else
      pure ("   상세조회: get_administrative_rule_comparison_detail(comparison_id=\""
        ++ pyStr law_id ++ "\")\n")
  else if target == "admrul" then do
    let ri ← fieldScan item ["행정규칙일련번호", "행정규칙MST"]
    if pyTruthy ri then
      pure ("   상세조회: get_administrative_rule_detail(rule_id=\"" ++ pyStr ri ++ "\")\n")
    else
      pure ("   상세조회: get_administrative_rule_detail(rule_id=\"" ++ pyStr law_id ++ "\")\n")
  else if target == "trty" then do
    let ti ← fieldScan item ["조약일련번호", "조약MST"]
    if pyTruthy ti then
      pure ("   상세조회: get_treaty_detail(treaty_id=\"" ++ pyStr ti ++ "\")\n")
    else
      pure ("   상세조회: get_treaty_detail(treaty_id=\"" ++ pyStr law_id ++ "\")\n")
  else if target == "lnkLsOrd" then do
    let oi ← fieldScan item ["자치법규일련번호", "자치법규MST"]
    if pyTruthy oi then
      pure ("   상세조회: get_local_ordinance_detail(ordinance_id=\"" ++ pyStr oi ++ "\")\n")
    else
      pure ("   상세조회: get_local_ordinance_detail(ordinance_id=\"" ++ pyStr law_id ++ "\")\n")
  else if target == "delHst" then do
    let ds ← dictGet item "일련번호" (.str "")
    if pyTruthy ds then
      pure ("   참고: 삭제된 법령입니다. 일련번호 " ++ pyStr ds
        ++ "로 복원 필요 시 법제처에 문의하세요.\n")
    else pure ""
  else if target == "thdCmp" then do
    let cur ← thdMstScan item none thdCmpMstKeys
    let thd ←
      if !optTruthy cur then
        if pyTruthy law_id then pure (find_mst_from_law_id oracle law_id item)
        else pure cur
      else pure cur
    let mid ←
      if !optTruthy cur && !optTruthy thd then do
        let law_name ← do
          let a ← dictGet item "법령명한글" .null
          if pyTruthy a then pure a else do
          let b ← dictGet item "법령명" .null
          if pyTruthy b then pure b else do
          let c ← dictGet item "삼단비교법령명" .null
          if pyTruthy c then pure c else dictGet item "3단비교법령명" .null
        if pyTruthy law_name then
          pure ("   참고: MST를 찾기 위해 법령명으로 검색 중...\n"
            ++ "   → `search_law(\"" ++ pyStr (cleanHtmlTagsV law_name)
            ++ "\")`로 MST 확인 후 사용\n")
        else pure "   참고: 상세조회용 일련번호를 확인할 수 없습니다.\n"
      else pure ""
    match thd with
    | some s =>
        if s ≠ "" then
          pure (mid ++ "   • 법령일련번호(MST): " ++ s ++ "\n"
            ++ "   상세조회: get_three_way_comparison_detail(mst=\"" ++ s
            ++ "\", knd=1)  # 인용조문\n"
            ++ "   상세조회: get_three_way_comparison_detail(mst=\"" ++ s
            ++ "\", knd=2)  # 위임조문\n")
        else pure mid
    | none => pure mid
  else if pyTruthy mst then
    pure ("   상세조회: get_law_detail(mst=\"" ++ pyStr mst ++ "\")\n")
  else if pyTruthy law_id then
    pure ("   상세조회: get_law_detail(law_id=\"" ++ pyStr law_id ++ "\")\n")
  else pure ""

/-- Reads the loop-carried `title` local; `none` models the variable never
having been assigned in this call, which Python reports as an unbound local
error caught by the outer handler. -/
def readTitle (st : Option JVal) : Except String JVal :=
  match st with
  | some v => pure v
  | none =>
      throw "cannot access local variable 'title' where it is not associated with a value"

/-- One iteration of the item loop (lines 823-1113): produces this item's
text and the value the `title` local holds afterwards (it leaks into the
next iteration, which matters when the `couseLs` branch skips the
assignment). -/
def formatItemG (guide : JVal → JVal → JVal → Except String String)
    (target : String) (i : Nat) (item : JVal)
    (st0 : Option JVal) : Except String (String × Option JVal) := do
  let mut r := "**" ++ toString i ++ ". "
  -- title selection (lines 846-881)
  let couse ← pure (target == "couseLs")
  let st1 : Option JVal ←
    if couse then do
      let hin ← pyIn "기본정보" item
      if hin then do
        let basic ← pySubscript item "기본정보"
        match basic with
        | .obj kvs =>
            pure (some (pyOr ((jLookup kvs "법령명한글").getD (.str ""))
              ((jLookup kvs "법령명").getD (.str ""))))
        | _ => pure st0  -- `title` not assigned: previous value (or unbound)
      else do
        let t ← titleScan item titleKeys
        pure (some (match t with | some s => JVal.str s | none => JVal.null))
    else if target == "elaw" then do
      let hin ← pyIn "법령명영문" item
      let cond ← if hin then do
          let v ← pySubscript item "법령명영문"
          pure (pyTruthy v)
        else pure false
      if cond then do
        let v ← pySubscript item "법령명영문"
        let t ← reSubTags v
        let hk ← pyIn "법령명한글" item
        let kcond ← if hk then do
            let kv ← pySubscript item "법령명한글"
            pure (pyTruthy kv)
          else pure false
        if kcond then do
          let kv ← pySubscript item "법령명한글"
          let kt ← reSubTags kv
          pure (some (.str (t ++ " (" ++ kt ++ ")")))
        else pure (some (.str t))
      else do
        let t ← titleScan item titleKeys
        pure (some (match t with | some s => JVal.str s | none => JVal.null))
    else do
      let t ← titleScan item titleKeys
      pure (some (match t with | some s => JVal.str s | none => JVal.null))
  -- delHst fallback title (lines 868-871)
  let st2 : Option JVal ← do
    let tv ← readTitle st1
    if !pyTruthy tv && target == "delHst" then do
      let gubun ← dictGet item "구분명" (.str "법령")
      let seq ← dictGet item "일련번호" (.str "")
      pure (some (.str ("삭제된 " ++ pyStr gubun ++ " (일련번호: " ++ pyStr seq ++ ")")))
    else pure st1
  -- potential-title-keys debugging fallback (lines 874-881)
  let st3 : Option JVal ← do
    let tv ← readTitle st2
    if !pyTruthy tv then do
      let available : List String := match item with
        | .obj kvs => kvs.map (·.1)
        | _ => []
      let potential := available.filter (fun k =>
        (infixOfL "법령".data k.data || infixOfL "title".data (pyLower k).data)
          && k ≠ "구분명")
      match potential with
      | p :: _ => do
          let v ← dictGet item p (.str "")
          pure (some (.str (strStrip v)))
      | [] => pure st2
    else pure st2
  let tv ← readTitle st3
  if pyTruthy tv then
    r := r ++ pyStr tv ++ "**\n"
  else
    r := r ++ "제목 없음**\n"
  -- detail fields (lines 889-962)
  let fields := detailFields ++ (if target == "thdCmp" then thdCmpExtraFields else [])
  for fld in fields do
    let raw ←
      if couse then do
        let hin ← pyIn "기본정보" item
        if hin then do
          let basic ← pySubscript item "기본정보"
          match basic with
          | .obj _ => fieldScan basic fld.2
          | _ => pure .null
        else fieldScan item fld.2
      else fieldScan item fld.2
    if pyTruthy raw then do
      let v ← if fld.1 == "소관부처명" then ministryValue raw else pure (strStrip raw)
      if v ≠ "" then
        r := r ++ "   " ++ fld.1 ++ ": " ++ v ++ "\n"
  -- MST and law id probes (lines 965-986)
  let mst ← fieldScan item ["법령일련번호", "MST", "mst", "lawMst"]
  let law_id ←
    if target == "lsRlt" then
      fieldScan item ["관련법령ID", "법령ID", "ID", "lawId"]
    else
      fieldScan item ["법령ID", "ID", "id", "lawId"]
  let g ← guide item mst law_id
  r := r ++ g
  -- couseLs article block (lines 1102-1111)
  if couse then do
    let hin ← pyIn "조문" item
    if hin then do
      let articles ← pySubscript item "조문"
      let h2 ← pyIn "조문단위" articles
      if h2 then do
        let units ← pySubscript articles "조문단위"
        if pyTruthy units then do
          let n ← pyLen units
          r := r ++ "\n**관련 조문** (" ++ toString n ++ "개):\n"
          let elems ← pyIter units
          for a in elems do
            let no ← dictGet a "조문번호" (.str "")
            let ti ← dictGet a "조문제목" (.str "")
            r := r ++ "- 제" ++ pyStr no ++ "조: " ++ pyStr ti ++ "\n"
  pure (r ++ "\n", st3)

/-- Embeds `formatItemG` with the guide block wired to the live oracle: one
iteration of the item loop exactly as the source runs it. -/
def formatItem (oracle : Oracle) (target : String) (i : Nat) (item : JVal)
    (st0 : Option JVal) : Except String (String × Option JVal) :=
  formatItemG (itemGuide oracle target) target i item st0

/-- The enumerated item loop over an abstract per-item step, threading the
`title` local across iterations. -/
def formatItemsLoopG
    (fItem : Nat → JVal → Option JVal → Except String (String × Option JVal)) :
    List JVal → Nat → Option JVal → Except String String
  | [], _, _ => pure ""
  | item :: rest, i, st => do
      let (s, st') ← fItem i item st
      let r ← formatItemsLoopG fItem rest (i + 1) st'
      pure (s ++ r)

/-- The item loop with the live per-item step. -/
def formatItemsLoop (oracle : Oracle) (target : String) :
    List JVal → Nat → Option JVal → Except String String :=
  formatItemsLoopG (formatItem oracle target)

/-- The body of `_format_search_results` before its `except` handler.  The
`isinstance` re-check of lines 783-786 is unreachable after the
normalization block and is therefore not represented. -/
def formatSearchResultsBodyG
    (loopFn : List JVal → Nat → Option JVal → Except String String)
    (data : List (String × JVal))
    (target : String) (search_query : String) (max_results : Nat) :
    Except String String := do
  let sel ← selectTargetData data target search_query
  match sel with
  | .retEarly s => pure s
  | .tdata td0 =>
      let td1 := normalizeTargetData td0
      if td1.isEmpty then
        if jHasKey data "LawSearch" then do
          let ls := (jLookup data "LawSearch").getD .null
          let keys ← match ls with
            | .obj kvs => pure (kvs.map (·.1))
            | v => throw ("'" ++ pyTypeName v ++ "' object has no attribute 'keys'")
          let tc ← dictGet ls "totalCnt" (.num 0)
          pure ("'" ++ search_query ++ "'에 대한 검색 결과 파싱 실패.\n\n**디버깅 정보:**\n- 총 "
            ++ pyStr tc ++ "건 검색됨\n- 사용 가능한 키: "
            ++ pyStr (.arr (keys.map JVal.str)) ++ "\n- 타겟: " ++ target
            ++ "\n\n**해결방법:** _format_search_results 함수의 타겟 처리 로직을 확인하세요.")
        else
          pure ("'" ++ search_query ++ "'에 대한 검색 결과가 없습니다.")
      else do
        let td ←
          if target == "law" || target == "elaw" || target == "eflaw" then
            lawSort search_query td1
          else pure td1
        let limited := td.take max_results
        let total := td.length
        let header := "**'" ++ search_query ++ "' 검색 결과** (총 " ++ toString total ++ "건"
          ++ (if total > max_results then ", 상위 " ++ toString max_results ++ "건 표시" else "")
          ++ ")\n\n"
        let items ← loopFn limited 1 none
        let footer :=
          if total > max_results then
            "더 많은 결과가 있습니다. 검색어를 구체화하거나 페이지 번호를 조정해보세요.\n"
          else ""
        pure (header ++ items ++ footer)

/-- The body with the live item loop. -/
def formatSearchResultsBody (oracle : Oracle) (data : List (String × JVal))
    (target : String) (search_query : String) (max_results : Nat) :
    Except String String :=
  formatSearchResultsBodyG (formatItemsLoop oracle target) data target
    search_query max_results

/-- Embeds `_format_search_results` from `law_tools.py` lines 598-1122, with the
upstream law-search response required by the `thdCmp` MST fallback passed as
an explicit oracle. -/
def format_search_results (oracle : Oracle) (data : List (String × JVal))
    (target : String) (search_query : String) (max_results : Nat) :
    String :=
  match formatSearchResultsBody oracle data target search_query max_results with
  | .ok s => s
  | .error e => "검색 결과 처리 중 오류가 발생했습니다: " ++ e

end KrLeg

namespace KrLeg

/-! ## Concrete inputs used by witnesses and counterexamples, and the
whitespace-normal-form predicates of the sanitizer analysis -/

/-- A response whose target-specific envelope is present but empty while a
different envelope in the table holds a record. -/
def emptyTargetEnvelopeResponse : List (String × JVal) :=
  [("LawSearch", .obj [("law", .arr [])]),
   ("PrecSearch", .obj [("prec", .arr [.obj [("법령명한글", .str "민법")]])])]

/-- A one-file file system: key `"k"`, written at mtime `0`, holding
`{"timestamp": ..., "data": "v"}`. -/
def demoCacheFs : FileSys :=
  fun p =>
    if p = "k.json" then
      some ⟨0, JVal.obj [("timestamp", JVal.str "t0"), ("data", JVal.str "v")]⟩
    else none

/-- Head-of-list predicate: the list does not start with whitespace. -/
def headNotSpace : List Char → Bool
  | [] => true
  | c :: _ => !pyIsSpace c

/-- Whitespace normal form: every whitespace character is a plain space and
no two are adjacent. -/
def spacedOK : List Char → Bool
  | [] => true
  | c :: rest => (!pyIsSpace c || (c == ' ' && headNotSpace rest)) && spacedOK rest

/-- Last-of-list predicate: the list does not end with whitespace. -/
def lastNotSpace : List Char → Bool
  | [] => true
  | c :: rest =>
      match rest with
      | [] => !pyIsSpace c
      | _ :: _ => lastNotSpace rest

/-- A `thdCmp` search hit carrying a law id and a law name but no MST
field, which drives the formatter into its live MST-lookup fallback. -/
def thdCmpLookupData : List (String × JVal) :=
  [("thdCmpLawSearch", .obj [("thdCmp",
      .arr [.obj [("법령ID", .str "1747"), ("법령명한글", .str "민법")]])])]

/-- An upstream law search that finds the law: id `1747`, MST `248613`. -/
def oracleFound : Oracle := fun _ =>
  some (.obj [("LawSearch", .obj [("law",
    .arr [.obj [("법령ID", .str "1747"), ("법령일련번호", .str "248613")]])])])

/-- An upstream law search that returns an empty object. -/
def oracleEmpty : Oracle := fun _ => some (.obj [])

/-! ## Helper lemmas for the envelope resolver -/

theorem targetBranch_count {res : List (String × JVal)} {ok ik : String}
    {its : List JVal} {n : Nat} {e : Option String}
    (h : targetBranch res ok ik = some (its, n, e)) : n = its.length := by
  unfold targetBranch at h
  split at h
  · split at h
    · simp at h; obtain ⟨rfl, rfl, rfl⟩ := h; rfl
    · simp at h
  · simp at h

theorem fallbackScan_count {res : List (String × JVal)}
    {m : List (String × String × String)}
    {its : List JVal} {n : Nat} {e : Option String}
    (h : fallbackScan res m = some (its, n, e)) : n = its.length := by
  induction m with
  | nil => simp [fallbackScan] at h
  | cons hd tl ih =>
      unfold fallbackScan at h
      split at h
      · split at h
        · simp at h; obtain ⟨rfl, rfl, rfl⟩ := h; rfl
        · exact ih h
      · exact ih h

theorem genericScan_count {res : List (String × JVal)} {ks : List String}
    {its : List JVal} {n : Nat} {e : Option String}
    (h : genericScan res ks = some (its, n, e)) : n = its.length := by
  induction ks with
  | nil => simp [genericScan] at h
  | cons hd tl ih =>
      unfold genericScan at h
      split at h
      · simp at h; obtain ⟨rfl, rfl, rfl⟩ := h; rfl
      · simp at h; obtain ⟨rfl, rfl, rfl⟩ := h; rfl
      · exact ih h

/-! ## Claim theorems -/

/-- C1: for every entry `(target, outer_key, inner_key)` of
`RESPONSE_STRUCTURE_MAP`, resolving `{outer_key: {inner_key: [r]}}` with that
target yields `items == [r]`, `count == 1` and a null error, for any record
`r`. -/
theorem C1_map_entry_minimal_envelope (t ok ik : String) (r : JVal)
    (h : (t, ok, ik) ∈ RESPONSE_STRUCTURE_MAP) :
    extract_items_from_response [(ok, .obj [(ik, .arr [r])])] (some t)
      = ([r], 1, none) := by
  fin_cases h <;> rfl

/-- C1 witness: the `prec` entry at a concrete one-record response. -/
theorem C1_witness :
    (("prec", "PrecSearch", "prec") ∈ RESPONSE_STRUCTURE_MAP) ∧
    extract_items_from_response
      [("PrecSearch", .obj [("prec", .arr [.obj [("사건번호", .str "2020다1234")]])])]
      (some "prec")
      = ([.obj [("사건번호", .str "2020다1234")]], 1, none) :=
  ⟨by decide,
   C1_map_entry_minimal_envelope "prec" "PrecSearch" "prec"
     (.obj [("사건번호", .str "2020다1234")]) (by decide)⟩



/-- C2 counterexample: with `target = "law"`, the target-specific branch
extracts the empty list and `extract_items_from_response` returns
`([], 0, None)` directly, even though the fallback scan over all table
entries (which the claim says should run) has a non-empty match available. -/
theorem C2_counterexample :
    extract_items_from_response emptyTargetEnvelopeResponse (some "law")
        = ([], 0, none) ∧
    fallbackScan emptyTargetEnvelopeResponse RESPONSE_STRUCTURE_MAP
        = some ([.obj [("법령명한글", .str "민법")]], 1, none) :=
  ⟨rfl, rfl⟩

/-- C2 amended: when the target is known, its `outer_key` present with a
mapping value, and the value under `inner_key` (after wrapping a single
mapping) is a sequence, the target-specific branch returns
`(items, len(items), None)` whether or not that sequence is empty; the
fallback scan runs only when the target-specific extraction does not produce
a sequence at all. -/
theorem C2_amended_target_branch_returns_any_list
    (result : List (String × JVal)) (t ok ik : String)
    (inner : List (String × JVal)) (l : List JVal)
    (hne : result.isEmpty = false)
    (hlaw : ∀ s : String, jLookup result "Law" ≠ some (.str s))
    (hmap : structureMapLookup t = some (ok, ik))
    (houter : jLookup result ok = some (.obj inner))
    (hitems : wrapSingle ((jLookup inner ik).getD (.arr [])) = .arr l) :
    extract_items_from_response result (some t) = (l, l.length, none) := by
  have htb : targetBranch result ok ik = some (l, l.length, none) := by
    unfold targetBranch
    rw [houter]
    simp only [hitems]
  unfold extract_items_from_response
  rw [hne]
  simp only [Bool.false_eq_true, if_false]
  rcases hl : jLookup result "Law" with _ | v
  · simp only [hl, Option.some_bind, hmap, htb]
  · rcases v with _ | b | n | s | es | ms
    · simp only [hl, Option.some_bind, hmap, htb]
    · simp only [hl, Option.some_bind, hmap, htb]
    · simp only [hl, Option.some_bind, hmap, htb]
    · exact absurd hl (hlaw s)
    · simp only [hl, Option.some_bind, hmap, htb]
    · simp only [hl, Option.some_bind, hmap, htb]

/-- C2 witness: the amended statement at the empty-envelope input. -/
theorem C2_witness :
    extract_items_from_response [("LawSearch", .obj [("law", .arr [])])]
      (some "law") = ([], 0, none) :=
  C2_amended_target_branch_returns_any_list
    [("LawSearch", .obj [("law", .arr [])])] "law" "LawSearch" "law"
    [("law", .arr [])] [] rfl (fun _ h => Option.noConfusion h) rfl rfl rfl

/-- C3 counterexample: a string at the result-array position of the (known)
`ppc` envelope, with no other envelope present, produces the parse-failure
message as a non-null error, not the zero-items-and-null-error outcome the
claim describes. -/
theorem C3_counterexample :
    extract_items_from_response
      [("Ppc", .obj [("ppc", .str "검색 결과가 없습니다")])] (some "ppc")
      = ([], 0, some "데이터 구조 파싱 실패") ∧
    (some "데이터 구조 파싱 실패" ≠ (none : Option String)) :=
  ⟨rfl, by simp⟩

/-- C3 amended: for every table entry `(target, outer_key, inner_key)`, a
response `{outer_key: {inner_key: <string>}}` (so no other envelope matches)
makes the resolver fall through every pass without raising and return zero
items — but with the parse-failure message as the error, not a null error.
(`_format_search_results` separately replaces committee/court string
payloads with an empty list before rendering.) -/
theorem C3_amended_string_payload_parse_failure (t ok ik : String) (s : String)
    (h : (t, ok, ik) ∈ RESPONSE_STRUCTURE_MAP) :
    extract_items_from_response [(ok, .obj [(ik, .str s)])] (some t)
      = ([], 0, some "데이터 구조 파싱 실패") := by
  fin_cases h <;> rfl

/-- C3 witness: the amended statement at the `ppc` entry. -/
theorem C3_witness :
    extract_items_from_response
      [("Ppc", .obj [("ppc", .str "검색 결과가 없습니다")])] (some "ppc")
      = ([], 0, some "데이터 구조 파싱 실패") :=
  C3_amended_string_payload_parse_failure "ppc" "Ppc" "ppc"
    "검색 결과가 없습니다" (by decide)

/-- C4: any response object holding a string under `"Law"` is treated as an
error: empty items, count `0`, and that string as the error message, for
every target. -/
theorem C4_law_string_error (result : List (String × JVal)) (s : String)
    (t : Option String) (h : jLookup result "Law" = some (.str s)) :
    extract_items_from_response result t = ([], 0, some s) := by
  have hne : result.isEmpty = false := by
    cases result with
    | nil => simp [jLookup] at h
    | cons a l => rfl
  unfold extract_items_from_response
  rw [hne, h]
  rfl

/-- C4 witness: the documented no-match message yields `total_count == 0`
and a non-null error. -/
theorem C4_witness :
    extract_items_from_response [("Law", .str "일치하는 법령이 없습니다")] none
        = ([], 0, some "일치하는 법령이 없습니다") ∧
    (some "일치하는 법령이 없습니다" ≠ (none : Option String)) :=
  ⟨C4_law_string_error [("Law", .str "일치하는 법령이 없습니다")]
      "일치하는 법령이 없습니다" none rfl,
   by simp⟩

/-- C5: `normalize_response` always reports `success` exactly when
`total_count` is positive, for every input object, target and `clean_html`
flag. -/
theorem C5_success_iff_positive_count (result : List (String × JVal))
    (tgt : Option String) (ch : Bool) :
    (normalize_response result tgt ch).success = true ↔
      0 < (normalize_response result tgt ch).total_count := by
  unfold normalize_response
  simp

/-- C10: in every branch of `extract_items_from_response`, the returned
count equals the length of the returned items list. -/
theorem C10_count_eq_items_length (result : List (String × JVal))
    (tgt : Option String) :
    (extract_items_from_response result tgt).2.1
      = (extract_items_from_response result tgt).1.length := by
  unfold extract_items_from_response
  split
  · rfl
  · split
    · rfl
    · split
      · next r heq =>
        obtain ⟨its, n, e⟩ := r
        rcases tgt with _ | t
        · simp at heq
        · simp only [Option.some_bind] at heq
          rcases hm : structureMapLookup t with _ | p
          · rw [hm] at heq; simp at heq
          · rw [hm] at heq; simp only [Option.some_bind] at heq
            exact targetBranch_count heq
      · split
        · next r heq =>
          obtain ⟨its, n, e⟩ := r
          exact fallbackScan_count heq
        · split
          · next r heq =>
            obtain ⟨its, n, e⟩ := r
            exact genericScan_count heq
          · rfl

end KrLeg

namespace KrLeg

/-- C7: (1) the cache key is the digest of `law_id + "_" + section`, so at
the call sites (which pass `f"{target}_{mst}"` as `law_id`) it is a hash of
the `(target, id, section)` triple; (2) a cache file is valid exactly when
its mtime is strictly newer than `now` minus the 7-day TTL; (3) an existing
but expired cache file makes `load_from_cache` delete the file and return
`None`. -/
theorem C7_cache_key_ttl_and_expiry :
    (∀ (md5hex : String → String) (tgt lawId sect : String),
        get_cache_key md5hex (tgt ++ "_" ++ lawId) sect
          = md5hex (tgt ++ "_" ++ lawId ++ "_" ++ sect)) ∧
    (∀ (fs : FileSys) (now : Int) (path : String) (f : CacheFile),
        fs path = some f →
        (is_cache_valid fs now path = true ↔
          now - CACHE_DAYS * secondsPerDay < f.mtime)) ∧
    (∀ (fs : FileSys) (now : Int) (key : String) (f : CacheFile),
        fs (get_cache_path key) = some f →
        is_cache_valid fs now (get_cache_path key) = false →
        load_from_cache fs now key = (none, fsErase fs (get_cache_path key))) := by
  refine ⟨?_, ?_, ?_⟩
  · intro md5hex tgt lawId sect
    rfl
  · intro fs now path f h
    unfold is_cache_valid
    rw [h]
    simp [gt_iff_lt]
  · intro fs now key f h hnv
    simp only [load_from_cache, h, hnv]
    simp



/-- C7 witness: the key shape at identity digest, and expiry of a week-old
file at `now = 10^6` seconds. -/
theorem C7_witness :
    get_cache_key (fun s => s) ("law" ++ "_" ++ "267581") "summary"
        = (fun s : String => s) ("law" ++ "_" ++ "267581" ++ "_" ++ "summary") ∧
    (is_cache_valid demoCacheFs 1000000 "k.json" = true ↔
        1000000 - CACHE_DAYS * secondsPerDay
          < (⟨0, JVal.obj [("timestamp", JVal.str "t0"), ("data", JVal.str "v")]⟩ : CacheFile).mtime) ∧
    load_from_cache demoCacheFs 1000000 "k"
        = (none, fsErase demoCacheFs (get_cache_path "k")) :=
  ⟨C7_cache_key_ttl_and_expiry.1 (fun s => s) "law" "267581" "summary",
   C7_cache_key_ttl_and_expiry.2.1 demoCacheFs 1000000 "k.json"
     ⟨0, JVal.obj [("timestamp", JVal.str "t0"), ("data", JVal.str "v")]⟩ (by rfl),
   C7_cache_key_ttl_and_expiry.2.2 demoCacheFs 1000000 "k"
     ⟨0, JVal.obj [("timestamp", JVal.str "t0"), ("data", JVal.str "v")]⟩ (by rfl) (by rfl)⟩

/-- C8: the sanitizer is a deterministic total function `String → String`
(equal inputs give equal outputs — it is a pure function of its argument),
and empty or `None` input yields the empty string. -/
theorem C8_sanitizer_total_deterministic (x y : String) (h : x = y) :
    clean_html_tags x = clean_html_tags y ∧ clean_html_tags "" = "" ∧
      clean_html_tags_opt none = "" :=
  ⟨by rw [h], rfl, rfl⟩

/-- C8 witness: the theorem applied at a concrete input. -/
theorem C8_witness :
    clean_html_tags "민법" = clean_html_tags "민법" ∧
      clean_html_tags "" = "" ∧ clean_html_tags_opt none = "" :=
  C8_sanitizer_total_deterministic "민법" "민법" rfl

end KrLeg

namespace KrLeg

/-! ## Whitespace-normal-form machinery for the sanitizer idempotence claim -/




theorem spacedOK_cons (c : Char) (rest : List Char) :
    spacedOK (c :: rest)
      = ((!pyIsSpace c || (c == ' ' && headNotSpace rest)) && spacedOK rest) := rfl

theorem lastNotSpace_cons_cons (c a : Char) (l : List Char) :
    lastNotSpace (c :: a :: l) = lastNotSpace (a :: l) := rfl

theorem stripTagsAux_no_lt : ∀ cs : List Char, '<' ∉ cs → stripTagsAux cs none = cs := by
  intro cs h
  induction cs with
  | nil => rfl
  | cons c rest ih =>
      have hc : c ≠ '<' := fun hc => h (hc ▸ List.mem_cons_self c rest)
      have hr : '<' ∉ rest := fun hr => h (List.mem_cons_of_mem c hr)
      unfold stripTagsAux
      rw [if_neg hc, ih hr]

theorem collapseAux_true_headNotSpace :
    ∀ l : List Char, headNotSpace (collapseAux l true) = true := by
  intro l
  induction l with
  | nil => rfl
  | cons c rest ih =>
      unfold collapseAux
      by_cases hc : pyIsSpace c = true
      · rw [if_pos hc]; simpa using ih
      · rw [if_neg hc]
        simp [headNotSpace, hc]

theorem spacedOK_collapseAux :
    ∀ (l : List Char) (b : Bool), spacedOK (collapseAux l b) = true := by
  intro l
  induction l with
  | nil => intro b; rfl
  | cons c rest ih =>
      intro b
      unfold collapseAux
      by_cases hc : pyIsSpace c = true
      · rw [if_pos hc]
        cases b with
        | true => exact ih true
        | false =>
            show spacedOK (' ' :: collapseAux rest true) = true
            rw [spacedOK_cons]
            simp only [collapseAux_true_headNotSpace, ih true]
            simp [pyIsSpace]
      · rw [if_neg hc]
        rw [spacedOK_cons]
        simp [hc, ih false]

theorem collapseAux_fix :
    ∀ l : List Char, spacedOK l = true →
      (collapseAux l false = l ∧ (headNotSpace l = true → collapseAux l true = l)) := by
  intro l
  induction l with
  | nil => exact fun _ => ⟨rfl, fun _ => rfl⟩
  | cons c rest ih =>
      intro h
      rw [spacedOK_cons, Bool.and_eq_true] at h
      obtain ⟨hc, hrest⟩ := h
      constructor
      · unfold collapseAux
        by_cases hsp : pyIsSpace c = true
        · rw [if_pos hsp]
          rcases Bool.or_eq_true _ _ |>.mp hc with h1 | h2
          · simp [hsp] at h1
          · obtain ⟨hce, hhd⟩ := Bool.and_eq_true _ _ |>.mp h2
            have hce' : c = ' ' := by simpa using hce
            show (if (false : Bool) = true then collapseAux rest true
                  else ' ' :: collapseAux rest true) = c :: rest
            rw [(ih hrest).2 hhd, hce']
            simp
        · rw [if_neg hsp, (ih hrest).1]
      · intro hhd
        simp only [headNotSpace] at hhd
        unfold collapseAux
        rw [if_neg (by simpa using hhd), (ih hrest).1]

theorem spacedOK_dropWhile {p : Char → Bool} :
    ∀ l : List Char, spacedOK l = true → spacedOK (l.dropWhile p) = true := by
  intro l
  induction l with
  | nil => exact fun _ => rfl
  | cons c rest ih =>
      intro h
      rw [spacedOK_cons, Bool.and_eq_true] at h
      rw [List.dropWhile_cons]
      by_cases hp : p c = true
      · rw [if_pos hp]; exact ih h.2
      · rw [if_neg hp]
        rw [spacedOK_cons, Bool.and_eq_true]
        exact h

theorem dropTrailingWs_cons_shape (c : Char) (rest : List Char) :
    dropTrailingWs (c :: rest) = [] ∨
      ∃ r', dropTrailingWs (c :: rest) = c :: r' := by
  unfold dropTrailingWs
  cases h : dropTrailingWs rest with
  | nil =>
      by_cases hc : pyIsSpace c = true
      · left; simp [hc]
      · right; exact ⟨[], by simp [hc]⟩
  | cons a l => right; exact ⟨a :: l, rfl⟩

theorem spacedOK_dropTrailingWs :
    ∀ l : List Char, spacedOK l = true → spacedOK (dropTrailingWs l) = true := by
  intro l
  induction l with
  | nil => exact fun _ => rfl
  | cons c rest ih =>
      intro h
      rw [spacedOK_cons, Bool.and_eq_true] at h
      obtain ⟨hc, hrest⟩ := h
      unfold dropTrailingWs
      cases hdt : dropTrailingWs rest with
      | nil =>
          by_cases hsp : pyIsSpace c = true
          · simp [hsp, spacedOK]
          · simp [hsp, spacedOK_cons, spacedOK, headNotSpace]
      | cons a l' =>
          rw [spacedOK_cons, Bool.and_eq_true]
          refine ⟨?_, by rw [← hdt]; exact ih hrest⟩
          rcases Bool.or_eq_true _ _ |>.mp hc with h1 | h2
          · simp [h1]
          · obtain ⟨hce, hhd⟩ := Bool.and_eq_true _ _ |>.mp h2
            cases rest with
            | nil => simp [dropTrailingWs] at hdt
            | cons r0 rt =>
                rcases dropTrailingWs_cons_shape r0 rt with he | ⟨r', he⟩
                · rw [he] at hdt; cases hdt
                · rw [he] at hdt
                  injection hdt with hh1 hh2
                  subst hh1
                  simp only [headNotSpace] at hhd
                  simp [hce, headNotSpace, hhd]

theorem headNotSpace_dropWhile :
    ∀ l : List Char, headNotSpace (l.dropWhile pyIsSpace) = true := by
  intro l
  induction l with
  | nil => rfl
  | cons c rest ih =>
      rw [List.dropWhile_cons]
      by_cases hc : pyIsSpace c = true
      · rw [if_pos hc]; exact ih
      · rw [if_neg hc]; simp [headNotSpace, hc]

theorem headNotSpace_dropTrailingWs :
    ∀ l : List Char, headNotSpace l = true → headNotSpace (dropTrailingWs l) = true := by
  intro l h
  cases l with
  | nil => rfl
  | cons c rest =>
      rcases dropTrailingWs_cons_shape c rest with he | ⟨r', he⟩
      · rw [he]; rfl
      · rw [he]
        simpa [headNotSpace] using h

theorem lastNotSpace_dropTrailingWs :
    ∀ l : List Char, lastNotSpace (dropTrailingWs l) = true := by
  intro l
  induction l with
  | nil => rfl
  | cons c rest ih =>
      unfold dropTrailingWs
      cases hdt : dropTrailingWs rest with
      | nil =>
          by_cases hc : pyIsSpace c = true
          · simp [hc, lastNotSpace]
          · simp [hc, lastNotSpace]
      | cons a l' =>
          rw [lastNotSpace_cons_cons]
          rw [← hdt]
          exact ih

theorem dropTrailingWs_id_of_lastNotSpace :
    ∀ l : List Char, lastNotSpace l = true → dropTrailingWs l = l := by
  intro l
  induction l with
  | nil => exact fun _ => rfl
  | cons c rest ih =>
      intro h
      unfold dropTrailingWs
      cases rest with
      | nil =>
          simp only [lastNotSpace] at h
          have hc : pyIsSpace c = false := by simpa using h
          simp [dropTrailingWs, hc]
      | cons r0 rt =>
          rw [lastNotSpace_cons_cons] at h
          rw [ih h]

theorem dropWhile_id_of_headNotSpace :
    ∀ l : List Char, headNotSpace l = true → l.dropWhile pyIsSpace = l := by
  intro l h
  cases l with
  | nil => rfl
  | cons c rest =>
      simp only [headNotSpace] at h
      rw [List.dropWhile_cons, if_neg (by simpa using h)]

theorem pyStrip_id_of_ends (w : List Char) (hh : headNotSpace w = true)
    (hl : lastNotSpace w = true) : pyStrip w = w := by
  unfold pyStrip
  rw [dropWhile_id_of_headNotSpace w hh]
  exact dropTrailingWs_id_of_lastNotSpace w hl

theorem pyStrip_collapse_fix (u : List Char) :
    pyStrip (collapseAux (pyStrip (collapseAux u false)) false)
      = pyStrip (collapseAux u false) := by
  have hsz : spacedOK (collapseAux u false) = true := spacedOK_collapseAux u false
  have hsw : spacedOK (pyStrip (collapseAux u false)) = true :=
    spacedOK_dropTrailingWs _ (spacedOK_dropWhile _ hsz)
  have hhw : headNotSpace (pyStrip (collapseAux u false)) = true :=
    headNotSpace_dropTrailingWs _ (headNotSpace_dropWhile _)
  have hlw : lastNotSpace (pyStrip (collapseAux u false)) = true :=
    lastNotSpace_dropTrailingWs _
  rw [(collapseAux_fix _ hsw).1]
  exact pyStrip_id_of_ends _ hhw hlw

theorem clean_fix_form (u : List Char)
    (h1 : '<' ∉ pyStrip (collapseAux u false))
    (h2 : pyUnescape (pyStrip (collapseAux u false)) = pyStrip (collapseAux u false)) :
    clean_html_tags (String.mk (pyStrip (collapseAux u false)))
      = String.mk (pyStrip (collapseAux u false)) := by
  by_cases h0 : String.mk (pyStrip (collapseAux u false)) = ""
  · rw [h0]; rfl
  · unfold clean_html_tags
    rw [if_neg h0]
    show String.mk (pyStrip (collapseAux (pyUnescape
        (stripTagsAux (pyStrip (collapseAux u false)) none)) false)) = _
    rw [stripTagsAux_no_lt _ h1, h2]
    exact congrArg String.mk (pyStrip_collapse_fix u)


/-- C6 counterexample: `clean_html_tags` is not idempotent.  Entity decoding
runs after tag stripping, so `&lt;b&gt;x&lt;/b&gt;` cleans to `<b>x</b>`,
which a second pass strips down to `x`. -/
theorem C6_counterexample :
    clean_html_tags (clean_html_tags "&lt;b&gt;x&lt;/b&gt;")
      ≠ clean_html_tags "&lt;b&gt;x&lt;/b&gt;" := by decide

/-- C6 amended: `clean_html_tags '<strong>민법</strong>' == "민법"` holds, and
the sanitizer is idempotent on every string whose cleaned form contains no
`'<'` and decodes no further HTML entities; in general a second pass can
differ, because entity decoding may surface new tags (see the
counterexample). -/
theorem C6_amended_conditional_idempotence (x : String)
    (h1 : '<' ∉ (clean_html_tags x).data)
    (h2 : pyUnescape (clean_html_tags x).data = (clean_html_tags x).data) :
    clean_html_tags (clean_html_tags x) = clean_html_tags x ∧
    clean_html_tags "<strong>민법</strong>" = "민법" := by
  refine ⟨?_, by decide⟩
  by_cases hx : x = ""
  · subst hx; rfl
  · have hcx : clean_html_tags x
        = String.mk (pyStrip (collapseAux (pyUnescape (stripTagsAux x.data none)) false)) := by
      unfold clean_html_tags
      rw [if_neg hx]
    rw [hcx] at h1 h2 ⊢
    exact clean_fix_form _ h1 h2

/-- C6 witness: the amended statement at the spec's own example. -/
theorem C6_witness :
    clean_html_tags (clean_html_tags "<strong>민법</strong>")
        = clean_html_tags "<strong>민법</strong>" ∧
    clean_html_tags "<strong>민법</strong>" = "민법" :=
  C6_amended_conditional_idempotence "<strong>민법</strong>" (by decide) (by decide)

end KrLeg

namespace KrLeg

/-! ## Oracle-independence lemmas for the formatter -/

set_option maxHeartbeats 1000000 in
theorem itemGuide_oracle_blind (o₁ o₂ : Oracle) (target : String)
    (item mst law_id : JVal) (h : target ≠ "thdCmp") :
    itemGuide o₁ target item mst law_id = itemGuide o₂ target item mst law_id := by
  have hb : (target == "thdCmp") = false := by
    simpa using h
  unfold itemGuide
  rw [hb]
  rfl

theorem formatItem_oracle_blind (o₁ o₂ : Oracle) (target : String) (i : Nat)
    (item : JVal) (st : Option JVal) (h : target ≠ "thdCmp") :
    formatItem o₁ target i item st = formatItem o₂ target i item st :=
  congrArg (fun g => formatItemG g target i item st)
    (funext fun a => funext fun b => funext fun c =>
      itemGuide_oracle_blind o₁ o₂ target a b c h)

theorem formatItemsLoop_oracle_blind (o₁ o₂ : Oracle) (target : String)
    (items : List JVal) (i : Nat) (st : Option JVal) (h : target ≠ "thdCmp") :
    formatItemsLoop o₁ target items i st = formatItemsLoop o₂ target items i st :=
  congrArg (fun f => formatItemsLoopG f items i st)
    (funext fun a => funext fun b => funext fun c =>
      formatItem_oracle_blind o₁ o₂ target a b c h)



/-- C9 counterexample: `_format_search_results` is not a function of
`(data, target, search_query, max_results)` alone.  On the `thdCmp` path
with an item carrying a law id but no MST field, the function performs a
live law-search request (`_find_mst_from_law_id` →
`_make_legislation_request`), and two calls with identical arguments but
different upstream responses return different strings. -/
theorem C9_counterexample :
    format_search_results oracleFound thdCmpLookupData "thdCmp" "민법" 50
      ≠ format_search_results oracleEmpty thdCmpLookupData "thdCmp" "민법" 50 := by
  decide

/-- C9 amended: for every target other than `thdCmp` the formatter's output
does not depend on the upstream oracle at all, so two calls with the same
`(data, target, search_query, max_results)` are byte-identical; on the
`thdCmp` MST-lookup fallback the output additionally depends on the live
law-search response, so byte-identity holds only when the upstream answers
identically (see the counterexample). -/
theorem C9_amended_oracle_independence (o₁ o₂ : Oracle)
    (data : List (String × JVal)) (target search_query : String)
    (max_results : Nat) (h : target ≠ "thdCmp") :
    format_search_results o₁ data target search_query max_results
      = format_search_results o₂ data target search_query max_results := by
  have hb : formatSearchResultsBody o₁ data target search_query max_results
      = formatSearchResultsBody o₂ data target search_query max_results :=
    congrArg (fun f => formatSearchResultsBodyG f data target search_query max_results)
      (funext fun a => funext fun b => funext fun c =>
        formatItemsLoop_oracle_blind o₁ o₂ target a b c h)
  unfold format_search_results
  rw [hb]

/-- C9 witness: a `law` search renders identically under the two oracles of
the counterexample. -/
theorem C9_witness :
    format_search_results oracleFound
        [("LawSearch", .obj [("law", .arr [.obj
          [("법령명한글", .str "민법"), ("법령일련번호", .str "248613")]])])]
        "law" "민법" 50
      = format_search_results oracleEmpty
        [("LawSearch", .obj [("law", .arr [.obj
          [("법령명한글", .str "민법"), ("법령일련번호", .str "248613")]])])]
        "law" "민법" 50 :=
  C9_amended_oracle_independence oracleFound oracleEmpty
    [("LawSearch", .obj [("law", .arr [.obj
      [("법령명한글", .str "민법"), ("법령일련번호", .str "248613")]])])]
    "law" "민법" 50 (by decide)

end KrLeg
